import Mathlib

/-!
# CMethodInheritance: hand-built virtual dispatch in C (`Main.c`)

A shallow embedding of `Main.c`: two global method tables (`_Person_VTable`,
`_Student_VTable`) with their call lists, heap-allocated `Person` / `Student`
records, the dispatch wrappers `Person_*` / `Student_*`, the implementation
functions `_Person_*` / `_Student_*`, and `main`.

Modelling conventions

* A pointer to an instance is a heap address (`Nat`); `NULL` is `none`.
* Undefined behaviour of the C program (dereferencing a released or never
  allocated address, reading a call-list slot that is out of range or empty,
  calling an entry point through a pointer of the wrong return type, reading
  the `GPA` member of a record that is only a `Person`) is the result `none`.
* `uint32_t` values are natural numbers; the increment wraps modulo `2 ^ 32`.
* `double` values are IEEE 754 binary64 bit patterns (sign, biased exponent,
  fraction); only the comparisons `>` and `<=` are needed, and they are exact.
* `stdout` is the string `out`; `calls` records every indirect call made
  through a method table (entry point and instance address), in order.
* `malloc` succeeds while the allocator budget `avail` is positive.
* The text `%.2f` produces for a double is a parameter of `FunctionTakingStudent`.
-/

namespace CMethodInheritance

/-! ## Data model -/

/-- Entry points: the addresses of the implementation functions that the call
lists store (`(void *) & _Person_Delete`, ...). -/
inductive Fn
  | _Person_Delete
  | _Person_SayHello
  | _Person_TalkAboutSelf
  | _Person_Grow
  | _Person_GetAge
  | _Person_GetName
  | _Student_TalkAboutSelf
  | _Student_GetGPA
  deriving DecidableEq, Repr

/-- Addresses of the two global `VTable` variables. -/
inductive VTableRef
  | _Person_VTable
  | _Student_VTable
  deriving DecidableEq, Repr

/-- Addresses of the two global call lists (`void * [6]` and `void * [7]`). -/
inductive CallListRef
  | _Person_VCallList
  | _Student_VCallList
  deriving DecidableEq, Repr

/-- The `VTable` struct: `struct VTable_Struct * Parent; void ** Calls;`. -/
structure VTable where
  Parent : Option VTableRef
  Calls : Option CallListRef
  deriving DecidableEq, Repr

/-- An IEEE 754 binary64 value: sign bit, 11-bit biased exponent, 52-bit fraction. -/
structure Double where
  sign : Bool
  expo : Fin 2048
  frac : Fin (2 ^ 52)
  deriving DecidableEq

/-- The `Person` struct: `VTable * _vtab; const char * Name; uint32_t Age;`. -/
structure Person where
  _vtab : Option VTableRef
  Name : String
  Age : Nat
  deriving DecidableEq

/-- The `Student` struct: `Person Super; double GPA;`. -/
structure Student where
  Super : Person
  GPA : Double
  deriving DecidableEq

/-- What a live heap block holds: a `Person` record or a `Student` record. -/
inductive Obj
  | person (p : Person)
  | student (s : Student)
  deriving DecidableEq

/-- Program state: the four globals, the heap, the allocator budget, standard
output, and the log of indirect calls. -/
structure State where
  _Person_VTable : VTable
  _Person_VCallList : List (Option Fn)
  _Student_VTable : VTable
  _Student_VCallList : List (Option Fn)
  heap : List (Option Obj)
  avail : Nat
  out : String
  calls : List (Fn × Nat)

/-- Value returned by an entry point, before the caller's cast fixes its type. -/
inductive Val
  | void
  | u32 (n : Nat)
  | str (s : String)
  | dbl (d : Double)
  deriving DecidableEq

/-- Globals of static storage duration start zeroed: null pointers everywhere. -/
def State.initial (avail : Nat) : State :=
  { _Person_VTable := { Parent := none, Calls := none }
    _Person_VCallList := List.replicate 6 none
    _Student_VTable := { Parent := none, Calls := none }
    _Student_VCallList := List.replicate 7 none
    heap := []
    avail := avail
    out := ""
    calls := [] }

/-- The call lists have their declared sizes, 6 and 7. -/
def State.WF (σ : State) : Prop :=
  σ._Person_VCallList.length = 6 ∧ σ._Student_VCallList.length = 7

instance (σ : State) : Decidable σ.WF := by
  unfold State.WF; infer_instance

/-! ## Slot indices (`#define ..._VTI_...`) -/

def Person_VTI_Delete : Nat := 0
def Person_VTI_SayHello : Nat := 1
def Person_VTI_TalkAboutSelf : Nat := 2
def Person_VTI_Grow : Nat := 3
def Person_VTI_GetAge : Nat := 4
def Person_VTI_GetName : Nat := 5
def Person_VTI_MaxVTI_ : Nat := Person_VTI_GetName

def Student_VTI_Delete : Nat := Person_VTI_Delete
def Student_VTI_SayHello : Nat := Person_VTI_SayHello
def Student_VTI_TalkAboutSelf : Nat := Person_VTI_TalkAboutSelf
def Student_VTI_Grow : Nat := Person_VTI_Grow
def Student_VTI_GetAge : Nat := Person_VTI_GetAge
def Student_VTI_GetName : Nat := Person_VTI_GetName
def Student_VTI_GetGPA : Nat := Person_VTI_MaxVTI_ + 1

/-- Declared length of `_Person_VCallList`. -/
def Person_VCallList_size : Nat := 6
/-- Declared length of `_Student_VCallList`. -/
def Student_VCallList_size : Nat := 7

/-! ## Static initialisers -/

/-- Translation of `_Person_StaticInit`. -/
def _Person_StaticInit (σ : State) : State :=
  let σ := { σ with _Person_VTable := { σ._Person_VTable with Parent := none } }
  let σ := { σ with _Person_VTable :=
    { σ._Person_VTable with Calls := some CallListRef._Person_VCallList } }
  let σ := { σ with _Person_VCallList :=
    σ._Person_VCallList.set Person_VTI_Delete (some Fn._Person_Delete) }
  let σ := { σ with _Person_VCallList :=
    σ._Person_VCallList.set Person_VTI_SayHello (some Fn._Person_SayHello) }
  let σ := { σ with _Person_VCallList :=
    σ._Person_VCallList.set Person_VTI_TalkAboutSelf (some Fn._Person_TalkAboutSelf) }
  let σ := { σ with _Person_VCallList :=
    σ._Person_VCallList.set Person_VTI_Grow (some Fn._Person_Grow) }
  let σ := { σ with _Person_VCallList :=
    σ._Person_VCallList.set Person_VTI_GetAge (some Fn._Person_GetAge) }
  { σ with _Person_VCallList :=
    σ._Person_VCallList.set Person_VTI_GetName (some Fn._Person_GetName) }

/-- Translation of `_Student_StaticInit`. -/
def _Student_StaticInit (σ : State) : State :=
  let σ := { σ with _Student_VTable :=
    { σ._Student_VTable with Parent := some VTableRef._Person_VTable } }
  let σ := { σ with _Student_VTable :=
    { σ._Student_VTable with Calls := some CallListRef._Student_VCallList } }
  let σ := { σ with _Student_VCallList :=
    σ._Student_VCallList.set Student_VTI_Delete (some Fn._Person_Delete) }
  let σ := { σ with _Student_VCallList :=
    σ._Student_VCallList.set Student_VTI_SayHello (some Fn._Person_SayHello) }
  let σ := { σ with _Student_VCallList :=
    σ._Student_VCallList.set Student_VTI_TalkAboutSelf (some Fn._Student_TalkAboutSelf) }
  let σ := { σ with _Student_VCallList :=
    σ._Student_VCallList.set Student_VTI_Grow (some Fn._Person_Grow) }
  let σ := { σ with _Student_VCallList :=
    σ._Student_VCallList.set Student_VTI_GetAge (some Fn._Person_GetAge) }
  let σ := { σ with _Student_VCallList :=
    σ._Student_VCallList.set Student_VTI_GetName (some Fn._Person_GetName) }
  { σ with _Student_VCallList :=
    σ._Student_VCallList.set Student_VTI_GetGPA (some Fn._Student_GetGPA) }

/-! ## `double` comparison -/

/-- A NaN has all exponent bits set and a non-zero fraction. -/
def Double.isNaN (d : Double) : Bool :=
  decide (d.expo.val = 2047) && decide (d.frac.val ≠ 0)

/-- Magnitude in units of `2 ^ (-1074)`: subnormals are `frac`, normal numbers are
`(2 ^ 52 + frac) * 2 ^ (expo - 1)`. An infinity (`expo = 2047`, `frac = 0`) gets
`2 ^ 52 * 2 ^ 2046`, above every finite magnitude. -/
def Double.magnitude (d : Double) : Nat :=
  if d.expo.val = 0 then d.frac.val else (2 ^ 52 + d.frac.val) * 2 ^ (d.expo.val - 1)

/-- Signed value in units of `2 ^ (-1074)`; both zeros map to `0`. -/
def Double.scaled (d : Double) : Int :=
  if d.sign then -(d.magnitude : Int) else (d.magnitude : Int)

/-- The C comparison `a > b` on doubles: false when either operand is a NaN. -/
def Double.gt (a b : Double) : Bool :=
  !a.isNaN && !b.isNaN && decide (b.scaled < a.scaled)

/-- The C comparison `a <= b` on doubles: false when either operand is a NaN. -/
def Double.le (a b : Double) : Bool :=
  !a.isNaN && !b.isNaN && decide (a.scaled ≤ b.scaled)

/-- The literal `2.6`: the binary64 value nearest to 13/5, `0x4004CCCCCCCCCCCD`. -/
def lit_2_6 : Double := { sign := false, expo := 1024, frac := ⟨0x4CCCCCCCCCCCD, by decide⟩ }

/-- The literal `3.8`: the binary64 value nearest to 19/5, `0x400E666666666666`. -/
def lit_3_8 : Double := { sign := false, expo := 1024, frac := ⟨0xE666666666666, by decide⟩ }

/-- The literal `2.0`, `0x4000000000000000`. -/
def lit_2_0 : Double := { sign := false, expo := 1024, frac := ⟨0, by decide⟩ }

/-- A quiet NaN, `0x7FF8000000000000`. -/
def quietNaN : Double := { sign := false, expo := 2047, frac := ⟨2 ^ 51, by decide⟩ }

/-! ## `printf` conversions -/

/-- The `int` that `%d` reads from a 32-bit argument: two's complement. -/
def asInt32 (n : Nat) : Int :=
  if n % 2 ^ 32 < 2 ^ 31 then ((n % 2 ^ 32 : Nat) : Int) else ((n % 2 ^ 32 : Nat) : Int) - 2 ^ 32

/-- Text produced by `%d`. -/
def fmt_d (i : Int) : String :=
  match i with
  | Int.ofNat n => Nat.repr n
  | Int.negSucc n => "-" ++ Nat.repr (n + 1)

/-- Append to standard output. -/
def State.print (σ : State) (s : String) : State :=
  { σ with out := σ.out ++ s }

/-! ## Heap -/

/-- The record at an address, when the address is live. -/
def State.load (σ : State) (p : Nat) : Option Obj :=
  match σ.heap[p]? with
  | some (some o) => some o
  | _ => none

/-- Overwrite the block at an address. -/
def State.store (σ : State) (p : Nat) (o : Obj) : State :=
  { σ with heap := σ.heap.set p (some o) }

/-- Model of `malloc`: a fresh address, or `NULL` when the budget is exhausted. The new
block is uninitialised and becomes live with the first `store`. -/
def State.malloc (σ : State) : Option Nat × State :=
  if σ.avail = 0 then (none, σ)
  else (some σ.heap.length, { σ with heap := σ.heap ++ [none], avail := σ.avail - 1 })

/-- Model of `free` on a non-null pointer: the block is released; releasing an address
that is not live is undefined. -/
def State.free (σ : State) (p : Nat) : Option State :=
  match σ.load p with
  | some _ => some { σ with heap := σ.heap.set p none }
  | none => none

/-- The `Person` at the start of a record: the record itself, or `Super`. -/
def Obj.asPerson : Obj → Person
  | Obj.person p => p
  | Obj.student s => s.Super

/-- Write the `Person` at the start of a record. -/
def Obj.setPerson : Obj → Person → Obj
  | Obj.person _, q => Obj.person q
  | Obj.student s, q => Obj.student { s with Super := q }

/-- The record seen as a `Student`; a plain `Person` has no `GPA` member. -/
def Obj.asStudent : Obj → Option Student
  | Obj.person _ => none
  | Obj.student s => some s

/-! ## Implementation functions -/

/-- Translation of `Person_New`. -/
def Person_New (Age : Nat) (Name : String) (σ : State) : Option Nat × State :=
  match σ.malloc with
  | (none, σ) => (none, σ)
  | (some Instance, σ) =>
    (some Instance,
      σ.store Instance
        (Obj.person { Age := Age, Name := Name, _vtab := some VTableRef._Person_VTable }))

/-- Translation of `_Person_Delete`. -/
def _Person_Delete (Instance : Nat) (σ : State) : Option State :=
  σ.free Instance

/-- Translation of `_Person_Grow`: `Instance -> Age ++` on a `uint32_t`. -/
def _Person_Grow (Instance : Nat) (σ : State) : Option State :=
  match σ.load Instance with
  | some o =>
    some (σ.store Instance
      (o.setPerson { o.asPerson with Age := (o.asPerson.Age + 1) % 2 ^ 32 }))
  | none => none

/-- Translation of `_Person_SayHello`. -/
def _Person_SayHello (Instance : Nat) (σ : State) : Option State :=
  match σ.load Instance with
  | some o => some (σ.print ("Hello world, I'm " ++ o.asPerson.Name ++ "!\n"))
  | none => none

/-- Translation of `_Person_TalkAboutSelf`: the `uint32_t` age goes through `%d`. -/
def _Person_TalkAboutSelf (Instance : Nat) (σ : State) : Option State :=
  match σ.load Instance with
  | some o => some (σ.print ("I am " ++ fmt_d (asInt32 o.asPerson.Age) ++ " years old.\n"))
  | none => none

/-- Translation of `_Person_GetAge`. -/
def _Person_GetAge (Instance : Nat) (σ : State) : Option Nat :=
  match σ.load Instance with
  | some o => some o.asPerson.Age
  | none => none

/-- Translation of `_Person_GetName`. -/
def _Person_GetName (Instance : Nat) (σ : State) : Option String :=
  match σ.load Instance with
  | some o => some o.asPerson.Name
  | none => none

/-- Translation of `Student_New`. -/
def Student_New (Age : Nat) (Name : String) (GPA : Double) (σ : State) :
    Option Nat × State :=
  match σ.malloc with
  | (none, σ) => (none, σ)
  | (some Instance, σ) =>
    (some Instance,
      σ.store Instance
        (Obj.student
          { Super := { Age := Age, Name := Name, _vtab := some VTableRef._Student_VTable }
            GPA := GPA }))

/-- Translation of `_Student_GetGPA`. -/
def _Student_GetGPA (Instance : Nat) (σ : State) : Option Double :=
  match σ.load Instance with
  | some o =>
    match o.asStudent with
    | some s => some s.GPA
    | none => none
  | none => none

/-- Translation of `_Student_TalkAboutSelf`. -/
def _Student_TalkAboutSelf (Instance : Nat) (σ : State) : Option State :=
  match σ.load Instance with
  | some o =>
    match o.asStudent with
    | some s =>
      some (σ.print ("I am " ++ fmt_d (asInt32 s.Super.Age) ++ " years old, and doing "
        ++ (if s.GPA.gt lit_2_6 then "Well" else "Poorly") ++ " in class!\n"))
    | none => none
  | none => none

/-! ## Dispatch -/

/-- Dereference a `VTable *`. -/
def State.vtable (σ : State) : VTableRef → VTable
  | VTableRef._Person_VTable => σ._Person_VTable
  | VTableRef._Student_VTable => σ._Student_VTable

/-- Dereference a `void **` that points at one of the call lists. -/
def State.callList (σ : State) : CallListRef → List (Option Fn)
  | CallListRef._Person_VCallList => σ._Person_VCallList
  | CallListRef._Student_VCallList => σ._Student_VCallList

/-- The expression `Instance -> _vtab -> Calls [ i ]` (for a `Student *`,
`Instance -> Super._vtab -> Calls [ i ]`, which reads the same location). -/
def State.slot (σ : State) (Instance : Nat) (i : Nat) : Option Fn :=
  match σ.load Instance with
  | some o =>
    match o.asPerson._vtab with
    | some t =>
      match (σ.vtable t).Calls with
      | some c =>
        match (σ.callList c)[i]? with
        | some (some f) => some f
        | _ => none
      | none => none
    | none => none
  | none => none

/-- The indirect call `( * PTR ) ( Instance )`: log it, then run the entry point. -/
def invoke (f : Fn) (Instance : Nat) (σ : State) : Option (Val × State) :=
  let σ := { σ with calls := σ.calls ++ [(f, Instance)] }
  match f with
  | Fn._Person_Delete => (_Person_Delete Instance σ).map fun σ => (Val.void, σ)
  | Fn._Person_SayHello => (_Person_SayHello Instance σ).map fun σ => (Val.void, σ)
  | Fn._Person_TalkAboutSelf => (_Person_TalkAboutSelf Instance σ).map fun σ => (Val.void, σ)
  | Fn._Person_Grow => (_Person_Grow Instance σ).map fun σ => (Val.void, σ)
  | Fn._Person_GetAge => (_Person_GetAge Instance σ).map fun n => (Val.u32 n, σ)
  | Fn._Person_GetName => (_Person_GetName Instance σ).map fun s => (Val.str s, σ)
  | Fn._Student_TalkAboutSelf =>
    (_Student_TalkAboutSelf Instance σ).map fun σ => (Val.void, σ)
  | Fn._Student_GetGPA => (_Student_GetGPA Instance σ).map fun d => (Val.dbl d, σ)

/-- A wrapper whose function pointer type returns `void`. -/
def dispatchVoid (i : Nat) (Instance : Nat) (σ : State) : Option State :=
  match σ.slot Instance i with
  | some f =>
    match invoke f Instance σ with
    | some (Val.void, σ) => some σ
    | _ => none
  | none => none

/-- A wrapper whose function pointer type returns `uint32_t`. -/
def dispatchU32 (i : Nat) (Instance : Nat) (σ : State) : Option (Nat × State) :=
  match σ.slot Instance i with
  | some f =>
    match invoke f Instance σ with
    | some (Val.u32 n, σ) => some (n, σ)
    | _ => none
  | none => none

/-- A wrapper whose function pointer type returns `const char *`. -/
def dispatchStr (i : Nat) (Instance : Nat) (σ : State) : Option (String × State) :=
  match σ.slot Instance i with
  | some f =>
    match invoke f Instance σ with
    | some (Val.str s, σ) => some (s, σ)
    | _ => none
  | none => none

/-- A wrapper whose function pointer type returns `double`. -/
def dispatchDbl (i : Nat) (Instance : Nat) (σ : State) : Option (Double × State) :=
  match σ.slot Instance i with
  | some f =>
    match invoke f Instance σ with
    | some (Val.dbl d, σ) => some (d, σ)
    | _ => none
  | none => none

def Person_Delete (Instance : Nat) (σ : State) : Option State :=
  dispatchVoid Person_VTI_Delete Instance σ

def Person_SayHello (Instance : Nat) (σ : State) : Option State :=
  dispatchVoid Person_VTI_SayHello Instance σ

def Person_TalkAboutSelf (Instance : Nat) (σ : State) : Option State :=
  dispatchVoid Person_VTI_TalkAboutSelf Instance σ

def Person_Grow (Instance : Nat) (σ : State) : Option State :=
  dispatchVoid Person_VTI_Grow Instance σ

def Person_GetAge (Instance : Nat) (σ : State) : Option (Nat × State) :=
  dispatchU32 Person_VTI_GetAge Instance σ

def Person_GetName (Instance : Nat) (σ : State) : Option (String × State) :=
  dispatchStr Person_VTI_GetName Instance σ

def Student_Delete (Instance : Nat) (σ : State) : Option State :=
  dispatchVoid Student_VTI_Delete Instance σ

def Student_SayHello (Instance : Nat) (σ : State) : Option State :=
  dispatchVoid Student_VTI_SayHello Instance σ

def Student_TalkAboutSelf (Instance : Nat) (σ : State) : Option State :=
  dispatchVoid Student_VTI_TalkAboutSelf Instance σ

def Student_Grow (Instance : Nat) (σ : State) : Option State :=
  dispatchVoid Student_VTI_Grow Instance σ

def Student_GetAge (Instance : Nat) (σ : State) : Option (Nat × State) :=
  dispatchU32 Student_VTI_GetAge Instance σ

def Student_GetName (Instance : Nat) (σ : State) : Option (String × State) :=
  dispatchStr Student_VTI_GetName Instance σ

def Student_GetGPA (Instance : Nat) (σ : State) : Option (Double × State) :=
  dispatchDbl Student_VTI_GetGPA Instance σ

/-! ## Main -/

/-- Translation of `FunctionTakingPerson`. -/
def FunctionTakingPerson (Instance : Nat) (σ : State) : Option State :=
  match Person_SayHello Instance σ with
  | some σ => Person_TalkAboutSelf Instance σ
  | none => none

/-- Translation of `main`: the exit status and the final state. -/
def main (σ : State) : Option (Int × State) :=
  let σ := _Person_StaticInit σ
  let σ := _Student_StaticInit σ
  match Student_New 19 "Liam" lit_3_8 σ with
  | (none, σ) => some (1, σ)
  | (some Liam, σ) =>
    match FunctionTakingPerson Liam σ with
    | some σ =>
      match Student_Delete Liam σ with
      | some σ => some (0, σ)
      | none => none
    | none => none

/-! ## Tables after initialisation -/

/-- Contents of `_Person_VCallList` once `_Person_StaticInit` has run. -/
def personCalls : List (Option Fn) :=
  [some Fn._Person_Delete, some Fn._Person_SayHello, some Fn._Person_TalkAboutSelf,
   some Fn._Person_Grow, some Fn._Person_GetAge, some Fn._Person_GetName]

/-- Contents of `_Student_VCallList` once `_Student_StaticInit` has run. -/
def studentCalls : List (Option Fn) :=
  [some Fn._Person_Delete, some Fn._Person_SayHello, some Fn._Student_TalkAboutSelf,
   some Fn._Person_Grow, some Fn._Person_GetAge, some Fn._Person_GetName,
   some Fn._Student_GetGPA]

/-- Both tables hold what the two static initialisers write. -/
structure State.Ready (σ : State) : Prop where
  pTable : σ._Person_VTable = { Parent := none, Calls := some CallListRef._Person_VCallList }
  pCalls : σ._Person_VCallList = personCalls
  sTable : σ._Student_VTable =
    { Parent := some VTableRef._Person_VTable, Calls := some CallListRef._Student_VCallList }
  sCalls : σ._Student_VCallList = studentCalls

/-- Both static initialisers, in the order `main` runs them. -/
def staticInit (σ : State) : State :=
  _Student_StaticInit (_Person_StaticInit σ)

/-- The state with one more indirect call logged. -/
def State.logCall (σ : State) (f : Fn) (Instance : Nat) : State :=
  { σ with calls := σ.calls ++ [(f, Instance)] }

/-- The record `Student_New` writes. -/
def newStudent (Age : Nat) (Name : String) (GPA : Double) : Obj :=
  Obj.student
    { Super := { Age := Age, Name := Name, _vtab := some VTableRef._Student_VTable }
      GPA := GPA }

/-- The record `Person_New` writes. -/
def newPerson (Age : Nat) (Name : String) : Obj :=
  Obj.person { Age := Age, Name := Name, _vtab := some VTableRef._Person_VTable }

/-! ## Operations and their slot numbering -/

/-- The named operations of the two classes. -/
inductive Operation
  | Delete
  | SayHello
  | TalkAboutSelf
  | Grow
  | GetAge
  | GetName
  | GetGPA
  deriving DecidableEq, Repr

/-- The operation an entry point implements, read off its name. -/
def Fn.operation : Fn → Operation
  | Fn._Person_Delete => Operation.Delete
  | Fn._Person_SayHello => Operation.SayHello
  | Fn._Person_TalkAboutSelf => Operation.TalkAboutSelf
  | Fn._Person_Grow => Operation.Grow
  | Fn._Person_GetAge => Operation.GetAge
  | Fn._Person_GetName => Operation.GetName
  | Fn._Student_TalkAboutSelf => Operation.TalkAboutSelf
  | Fn._Student_GetGPA => Operation.GetGPA

/-- The `Person_VTI_*` defines as a table: the slot of each operation of `Person`. -/
def Person_VTI : Operation → Option Nat
  | Operation.Delete => some Person_VTI_Delete
  | Operation.SayHello => some Person_VTI_SayHello
  | Operation.TalkAboutSelf => some Person_VTI_TalkAboutSelf
  | Operation.Grow => some Person_VTI_Grow
  | Operation.GetAge => some Person_VTI_GetAge
  | Operation.GetName => some Person_VTI_GetName
  | Operation.GetGPA => none

/-- The `Student_VTI_*` defines as a table: the slot of each operation of `Student`. -/
def Student_VTI : Operation → Option Nat
  | Operation.Delete => some Student_VTI_Delete
  | Operation.SayHello => some Student_VTI_SayHello
  | Operation.TalkAboutSelf => some Student_VTI_TalkAboutSelf
  | Operation.Grow => some Student_VTI_Grow
  | Operation.GetAge => some Student_VTI_GetAge
  | Operation.GetName => some Student_VTI_GetName
  | Operation.GetGPA => some Student_VTI_GetGPA

/-- The state right after `Student_New ( 19, "Liam", 3.8 )` in a run of `main` whose
allocation succeeds. -/
def liamState : State :=
  (Student_New 19 "Liam" lit_3_8 (staticInit (State.initial 1))).2

/-- The state right after `Person_New ( 19, "Liam" )` on initialised tables. -/
def liamPersonState : State :=
  (Person_New 19 "Liam" (staticInit (State.initial 1))).2

/-! ## Sequences of operations on one instance -/

/-- The dispatch wrappers other than the two release wrappers. -/
inductive Op
  | Person_SayHello
  | Person_TalkAboutSelf
  | Person_Grow
  | Person_GetAge
  | Person_GetName
  | Student_SayHello
  | Student_TalkAboutSelf
  | Student_Grow
  | Student_GetAge
  | Student_GetName
  | Student_GetGPA
  deriving DecidableEq, Repr

/-- Call one wrapper on an instance and drop the value it returns. -/
def Op.run (op : Op) (Instance : Nat) (σ : State) : Option State :=
  match op with
  | Op.Person_SayHello => CMethodInheritance.Person_SayHello Instance σ
  | Op.Person_TalkAboutSelf => CMethodInheritance.Person_TalkAboutSelf Instance σ
  | Op.Person_Grow => CMethodInheritance.Person_Grow Instance σ
  | Op.Person_GetAge => (CMethodInheritance.Person_GetAge Instance σ).map Prod.snd
  | Op.Person_GetName => (CMethodInheritance.Person_GetName Instance σ).map Prod.snd
  | Op.Student_SayHello => CMethodInheritance.Student_SayHello Instance σ
  | Op.Student_TalkAboutSelf => CMethodInheritance.Student_TalkAboutSelf Instance σ
  | Op.Student_Grow => CMethodInheritance.Student_Grow Instance σ
  | Op.Student_GetAge => (CMethodInheritance.Student_GetAge Instance σ).map Prod.snd
  | Op.Student_GetName => (CMethodInheritance.Student_GetName Instance σ).map Prod.snd
  | Op.Student_GetGPA => (CMethodInheritance.Student_GetGPA Instance σ).map Prod.snd

/-- Call a sequence of wrappers on one instance, left to right. -/
def runOps : List Op → Nat → State → Option State
  | [], _, σ => some σ
  | op :: ops, Instance, σ =>
    match op.run Instance σ with
    | some σ => runOps ops Instance σ
    | none => none

/-- The wrapper is `Person_Grow` or `Student_Grow`. -/
def Op.isGrow : Op → Bool
  | Op.Person_Grow => true
  | Op.Student_Grow => true
  | _ => false

/-- The wrapper is one of the `Person_*` wrappers. -/
def Op.isPersonWrapper : Op → Bool
  | Op.Person_SayHello => true
  | Op.Person_TalkAboutSelf => true
  | Op.Person_Grow => true
  | Op.Person_GetAge => true
  | Op.Person_GetName => true
  | _ => false

/-- The age a `uint32_t` counter holds after the `Grow` calls of a sequence. -/
def ageAfter : List Op → Nat → Nat
  | [], a => a
  | op :: ops, a => ageAfter ops (if op.isGrow then (a + 1) % 2 ^ 32 else a)

/-- The state right after `Person_New ( 4294967295, "Liam" )` on initialised tables. -/
def maxAgeState : State :=
  (Person_New 4294967295 "Liam" (staticInit (State.initial 1))).2

/-- The state right after `Student_New ( 4294967295, "Liam", 3.8 )` on initialised tables. -/
def maxAgeStudentState : State :=
  (Student_New 4294967295 "Liam" lit_3_8 (staticInit (State.initial 1))).2

/-- The state right after `Student_New ( 20, "Ann", 2.0 )` on initialised tables. -/
def annState : State :=
  (Student_New 20 "Ann" lit_2_0 (staticInit (State.initial 1))).2

/-- The state right after `Student_New ( 20, "Ann", NAN )` on initialised tables. -/
def nanState : State :=
  (Student_New 20 "Ann" quietNaN (staticInit (State.initial 1))).2

/-- The state right after `Student_New ( 20, "Ann", 2.6 )` on initialised tables. -/
def thresholdState : State :=
  (Student_New 20 "Ann" lit_2_6 (staticInit (State.initial 1))).2

/-! ## Method-table references and table contents -/

/-- The method-table reference stored in the record at an address (`_vtab`, which for a
`Student` is `Super._vtab`); `none` when the address is not live. -/
def State.vtabAt (σ : State) (q : Nat) : Option (Option VTableRef) :=
  (σ.load q).map fun o => o.asPerson._vtab

/-- The contents of both tables: the two `VTable` structs and the two call lists. -/
def State.tables (σ : State) : VTable × List (Option Fn) × VTable × List (Option Fn) :=
  (σ._Person_VTable, σ._Person_VCallList, σ._Student_VTable, σ._Student_VCallList)

/-- Liam the Student after one `Person_Grow`. -/
def liamGrownState : State :=
  (Op.Person_Grow.run 0 liamState).getD liamState

/-! ## Slot indices read by the wrappers -/

/-- The slot index each `Person_*` wrapper reads, in source order. -/
def personWrapperIndices : List Nat :=
  [Person_VTI_Delete, Person_VTI_SayHello, Person_VTI_TalkAboutSelf, Person_VTI_Grow,
   Person_VTI_GetAge, Person_VTI_GetName]

/-- The slot index each `Student_*` wrapper reads, in source order. -/
def studentWrapperIndices : List Nat :=
  [Student_VTI_Delete, Student_VTI_SayHello, Student_VTI_TalkAboutSelf, Student_VTI_Grow,
   Student_VTI_GetAge, Student_VTI_GetName, Student_VTI_GetGPA]

/-- Number of slots of the call list that the table of the instance at an address points
to; `none` when there is no live record, no table or no call list. -/
def State.tableSizeAt (σ : State) (Instance : Nat) : Option Nat :=
  match σ.load Instance with
  | some o =>
    match o.asPerson._vtab with
    | some t =>
      match (σ.vtable t).Calls with
      | some c => some (σ.callList c).length
      | none => none
    | none => none
  | none => none

/-! ## The direct caller -/

/-- Translation of `FunctionTakingStudent`: a direct call of `_Student_GetGPA` into the
local `GPA`, then one `printf`. The text `%.2f` produces for a double is the parameter
`fmt_2f`. -/
def FunctionTakingStudent (fmt_2f : Double → String) (Instance : Nat) (σ : State) :
    Option State :=
  match _Student_GetGPA Instance σ with
  | some _ =>
    match σ.load Instance with
    | some o =>
      match o.asStudent with
      | some s => some (σ.print (s.Super.Name ++ "'s GPA is " ++ fmt_2f s.GPA ++ "\n"))
      | none => none
    | none => none
  | none => none

/-! ## A Person table without a Student table -/

/-- The Person table holds what `_Person_StaticInit` writes; nothing is assumed of the
Student table. -/
structure State.PersonReady (σ : State) : Prop where
  pTable : σ._Person_VTable = { Parent := none, Calls := some CallListRef._Person_VCallList }
  pCalls : σ._Person_VCallList = personCalls

/-- The state right after `Person_New ( 19, "Liam" )` when only `_Person_StaticInit`
has run. -/
def liamPersonOnlyState : State :=
  (Person_New 19 "Liam" (_Person_StaticInit (State.initial 1))).2

/-- The state right after `Person_New ( 4294967295, "Liam" )` when only
`_Person_StaticInit` has run. -/
def maxAgePersonOnlyState : State :=
  (Person_New 4294967295 "Liam" (_Person_StaticInit (State.initial 1))).2

/-! # Properties -/

/-! ## Tables after initialisation -/

theorem list_length_six {α : Type} (l : List α) (h : l.length = 6) :
    ∃ a b c d e f, l = [a, b, c, d, e, f] := by
  match l, h with
  | [a, b, c, d, e, f], _ => exact ⟨a, b, c, d, e, f, rfl⟩

theorem list_length_seven {α : Type} (l : List α) (h : l.length = 7) :
    ∃ a b c d e f g, l = [a, b, c, d, e, f, g] := by
  match l, h with
  | [a, b, c, d, e, f, g], _ => exact ⟨a, b, c, d, e, f, g, rfl⟩

theorem Person_StaticInit_calls (σ : State) (h : σ._Person_VCallList.length = 6) :
    (_Person_StaticInit σ)._Person_VCallList = personCalls := by
  obtain ⟨a, b, c, d, e, f, hl⟩ := list_length_six _ h
  simp [_Person_StaticInit, hl, personCalls, Person_VTI_Delete, Person_VTI_SayHello,
    Person_VTI_TalkAboutSelf, Person_VTI_Grow, Person_VTI_GetAge, Person_VTI_GetName]

theorem Student_StaticInit_calls (σ : State) (h : σ._Student_VCallList.length = 7) :
    (_Student_StaticInit σ)._Student_VCallList = studentCalls := by
  obtain ⟨a, b, c, d, e, f, g, hl⟩ := list_length_seven _ h
  simp [_Student_StaticInit, hl, studentCalls, Student_VTI_Delete, Student_VTI_SayHello,
    Student_VTI_TalkAboutSelf, Student_VTI_Grow, Student_VTI_GetAge, Student_VTI_GetName,
    Student_VTI_GetGPA, Person_VTI_MaxVTI_,
    Person_VTI_Delete, Person_VTI_SayHello,
    Person_VTI_TalkAboutSelf, Person_VTI_Grow, Person_VTI_GetAge, Person_VTI_GetName]

theorem staticInit_ready (σ : State) (h : σ.WF) : (staticInit σ).Ready := by
  refine ⟨rfl, ?_, rfl, ?_⟩
  · exact Person_StaticInit_calls σ h.1
  · exact Student_StaticInit_calls _ h.2

theorem staticInit_heap (σ : State) : (staticInit σ).heap = σ.heap := rfl
theorem staticInit_avail (σ : State) : (staticInit σ).avail = σ.avail := rfl
theorem staticInit_out (σ : State) : (staticInit σ).out = σ.out := rfl
theorem staticInit_calls (σ : State) : (staticInit σ).calls = σ.calls := rfl

/-! ## Construction -/

theorem Student_New_eq (Age : Nat) (Name : String) (GPA : Double) (σ σ1 : State) (D : Nat)
    (h : Student_New Age Name GPA σ = (some D, σ1)) :
    0 < σ.avail ∧ D = σ.heap.length ∧
    σ1 = { σ with heap := σ.heap ++ [some (newStudent Age Name GPA)], avail := σ.avail - 1 } := by
  unfold Student_New State.malloc at h
  by_cases h0 : σ.avail = 0
  · simp [h0] at h
  · simp [h0, State.store, newStudent] at h ⊢
    obtain ⟨h1, h2⟩ := h
    exact ⟨Nat.pos_of_ne_zero h0, h1.symm, h2.symm⟩

theorem Person_New_eq (Age : Nat) (Name : String) (σ σ1 : State) (B : Nat)
    (h : Person_New Age Name σ = (some B, σ1)) :
    0 < σ.avail ∧ B = σ.heap.length ∧
    σ1 = { σ with heap := σ.heap ++ [some (newPerson Age Name)], avail := σ.avail - 1 } := by
  unfold Person_New State.malloc at h
  by_cases h0 : σ.avail = 0
  · simp [h0] at h
  · simp [h0, State.store, newPerson] at h ⊢
    obtain ⟨h1, h2⟩ := h
    exact ⟨Nat.pos_of_ne_zero h0, h1.symm, h2.symm⟩

/-! ## Dispatch on an initialised table -/

theorem load_logCall (σ : State) (f : Fn) (q p : Nat) : (σ.logCall f q).load p = σ.load p := rfl

theorem load_print (σ : State) (s : String) (p : Nat) : (σ.print s).load p = σ.load p := rfl

theorem slot_student (σ : State) (D i : Nat) (o : Obj) (hR : σ.Ready)
    (hL : σ.load D = some o) (hv : o.asPerson._vtab = some VTableRef._Student_VTable) :
    σ.slot D i = (studentCalls[i]?).join := by
  simp only [State.slot, hL, hv, State.vtable, hR.sTable, State.callList, hR.sCalls]
  cases h : studentCalls[i]? with
  | none => rfl
  | some x => cases x <;> rfl

theorem slot_person (σ : State) (B i : Nat) (o : Obj) (hR : σ.Ready)
    (hL : σ.load B = some o) (hv : o.asPerson._vtab = some VTableRef._Person_VTable) :
    σ.slot B i = (personCalls[i]?).join := by
  simp only [State.slot, hL, hv, State.vtable, hR.pTable, State.callList, hR.pCalls]
  cases h : personCalls[i]? with
  | none => rfl
  | some x => cases x <;> rfl

theorem dispatchVoid_SayHello (σ : State) (p i : Nat) (o : Obj)
    (hs : σ.slot p i = some Fn._Person_SayHello) (hL : σ.load p = some o) :
    dispatchVoid i p σ =
      some ((σ.logCall Fn._Person_SayHello p).print
        ("Hello world, I'm " ++ o.asPerson.Name ++ "!\n")) := by
  simp [dispatchVoid, hs, invoke, _Person_SayHello, State.load, State.logCall] at hL ⊢
  simp [hL]

theorem dispatchVoid_Person_TalkAboutSelf (σ : State) (p i : Nat) (o : Obj)
    (hs : σ.slot p i = some Fn._Person_TalkAboutSelf) (hL : σ.load p = some o) :
    dispatchVoid i p σ =
      some ((σ.logCall Fn._Person_TalkAboutSelf p).print
        ("I am " ++ fmt_d (asInt32 o.asPerson.Age) ++ " years old.\n")) := by
  simp [dispatchVoid, hs, invoke, _Person_TalkAboutSelf, State.load, State.logCall] at hL ⊢
  simp [hL]

theorem dispatchVoid_Student_TalkAboutSelf (σ : State) (p i : Nat) (s : Student)
    (hs : σ.slot p i = some Fn._Student_TalkAboutSelf)
    (hL : σ.load p = some (Obj.student s)) :
    dispatchVoid i p σ =
      some ((σ.logCall Fn._Student_TalkAboutSelf p).print
        ("I am " ++ fmt_d (asInt32 s.Super.Age) ++ " years old, and doing "
          ++ (if s.GPA.gt lit_2_6 then "Well" else "Poorly") ++ " in class!\n")) := by
  simp [dispatchVoid, hs, invoke, _Student_TalkAboutSelf, State.load, State.logCall] at hL ⊢
  simp [hL, Obj.asStudent]

theorem dispatchVoid_Grow (σ : State) (p i : Nat) (o : Obj)
    (hs : σ.slot p i = some Fn._Person_Grow) (hL : σ.load p = some o) :
    dispatchVoid i p σ =
      some ((σ.logCall Fn._Person_Grow p).store p
        (o.setPerson { o.asPerson with Age := (o.asPerson.Age + 1) % 2 ^ 32 })) := by
  simp [dispatchVoid, hs, invoke, _Person_Grow, State.load, State.logCall] at hL ⊢
  simp [hL]

theorem dispatchVoid_Delete (σ : State) (p i : Nat) (o : Obj)
    (hs : σ.slot p i = some Fn._Person_Delete) (hL : σ.load p = some o) :
    dispatchVoid i p σ =
      some { σ.logCall Fn._Person_Delete p with heap := σ.heap.set p none } := by
  simp [dispatchVoid, hs, invoke, _Person_Delete, State.free, State.load, State.logCall] at hL ⊢
  simp [hL]

theorem dispatchU32_GetAge (σ : State) (p i : Nat) (o : Obj)
    (hs : σ.slot p i = some Fn._Person_GetAge) (hL : σ.load p = some o) :
    dispatchU32 i p σ = some (o.asPerson.Age, σ.logCall Fn._Person_GetAge p) := by
  simp [dispatchU32, hs, invoke, _Person_GetAge, State.load, State.logCall] at hL ⊢
  simp [hL]

theorem dispatchStr_GetName (σ : State) (p i : Nat) (o : Obj)
    (hs : σ.slot p i = some Fn._Person_GetName) (hL : σ.load p = some o) :
    dispatchStr i p σ = some (o.asPerson.Name, σ.logCall Fn._Person_GetName p) := by
  simp [dispatchStr, hs, invoke, _Person_GetName, State.load, State.logCall] at hL ⊢
  simp [hL]

theorem dispatchDbl_GetGPA (σ : State) (p i : Nat) (s : Student)
    (hs : σ.slot p i = some Fn._Student_GetGPA) (hL : σ.load p = some (Obj.student s)) :
    dispatchDbl i p σ = some (s.GPA, σ.logCall Fn._Student_GetGPA p) := by
  simp [dispatchDbl, hs, invoke, _Student_GetGPA, State.load, State.logCall] at hL ⊢
  simp [hL, Obj.asStudent]

/-! ## A freshly constructed instance -/

theorem Student_New_ready (Age : Nat) (Name : String) (GPA : Double) (σ σ1 : State) (D : Nat)
    (hR : σ.Ready) (h : Student_New Age Name GPA σ = (some D, σ1)) :
    σ1.Ready ∧ σ1.load D = some (newStudent Age Name GPA) ∧
      σ1.out = σ.out ∧ σ1.calls = σ.calls := by
  obtain ⟨_, hD, h1⟩ := Student_New_eq Age Name GPA σ σ1 D h
  subst hD h1
  exact ⟨⟨hR.pTable, hR.pCalls, hR.sTable, hR.sCalls⟩, by simp [State.load], rfl, rfl⟩

theorem Person_New_ready (Age : Nat) (Name : String) (σ σ1 : State) (B : Nat)
    (hR : σ.Ready) (h : Person_New Age Name σ = (some B, σ1)) :
    σ1.Ready ∧ σ1.load B = some (newPerson Age Name) ∧
      σ1.out = σ.out ∧ σ1.calls = σ.calls := by
  obtain ⟨_, hB, h1⟩ := Person_New_eq Age Name σ σ1 B h
  subst hB h1
  exact ⟨⟨hR.pTable, hR.pCalls, hR.sTable, hR.sCalls⟩, by simp [State.load], rfl, rfl⟩

theorem slot_newStudent (σ : State) (D i : Nat) (Age : Nat) (Name : String) (GPA : Double)
    (hR : σ.Ready) (hL : σ.load D = some (newStudent Age Name GPA)) :
    σ.slot D i = (studentCalls[i]?).join :=
  slot_student σ D i _ hR hL rfl

theorem slot_newPerson (σ : State) (B i : Nat) (Age : Nat) (Name : String)
    (hR : σ.Ready) (hL : σ.load B = some (newPerson Age Name)) :
    σ.slot B i = (personCalls[i]?).join :=
  slot_person σ B i _ hR hL rfl

/-! ## Override and inheritance -/

/-- C1. After both static initialisers, for a Student `D` returned by `Student_New`,
`Person_TalkAboutSelf` on `D` reads `_Student_TalkAboutSelf` from slot 2, makes exactly
that one indirect call, prints the derived description, and its result (output and whole
state) is the result of `Student_TalkAboutSelf` on `D`. -/
theorem C1_override (σ0 σ : State) (age : Nat) (name : String) (gpa : Double) (D : Nat)
    (hWF : σ0.WF)
    (hNew : Student_New age name gpa (staticInit σ0) = (some D, σ)) :
    σ.slot D Person_VTI_TalkAboutSelf = some Fn._Student_TalkAboutSelf ∧
    Person_TalkAboutSelf D σ = _Student_TalkAboutSelf D (σ.logCall Fn._Student_TalkAboutSelf D) ∧
    Person_TalkAboutSelf D σ =
      some ((σ.logCall Fn._Student_TalkAboutSelf D).print
        ("I am " ++ fmt_d (asInt32 age) ++ " years old, and doing "
          ++ (if gpa.gt lit_2_6 then "Well" else "Poorly") ++ " in class!\n")) ∧
    Person_TalkAboutSelf D σ = Student_TalkAboutSelf D σ := by
  obtain ⟨hR, hL, -, -⟩ := Student_New_ready age name gpa _ σ D (staticInit_ready σ0 hWF) hNew
  have hs : σ.slot D Person_VTI_TalkAboutSelf = some Fn._Student_TalkAboutSelf := by
    rw [slot_newStudent σ D _ age name gpa hR hL]; rfl
  have hrun := dispatchVoid_Student_TalkAboutSelf σ D Person_VTI_TalkAboutSelf _ hs hL
  refine ⟨hs, ?_, hrun, rfl⟩
  rw [Person_TalkAboutSelf, hrun]
  simp [_Student_TalkAboutSelf, load_logCall, hL, newStudent, Obj.asStudent]

/-- Witness for C1: the instance `main` builds, at address 0. -/
theorem C1_override_witness :
    (State.initial 1).WF ∧
    Student_New 19 "Liam" lit_3_8 (staticInit (State.initial 1)) = (some 0, liamState) ∧
    (liamState.slot 0 Person_VTI_TalkAboutSelf = some Fn._Student_TalkAboutSelf ∧
    Person_TalkAboutSelf 0 liamState =
      _Student_TalkAboutSelf 0 (liamState.logCall Fn._Student_TalkAboutSelf 0) ∧
    Person_TalkAboutSelf 0 liamState =
      some ((liamState.logCall Fn._Student_TalkAboutSelf 0).print
        ("I am " ++ fmt_d (asInt32 19) ++ " years old, and doing "
          ++ (if lit_3_8.gt lit_2_6 then "Well" else "Poorly") ++ " in class!\n")) ∧
    Person_TalkAboutSelf 0 liamState = Student_TalkAboutSelf 0 liamState) :=
  ⟨by decide, rfl, C1_override (State.initial 1) liamState 19 "Liam" lit_3_8 0 (by decide) rfl⟩

/-- C2. After both static initialisers, for a Student `D` returned by `Student_New`,
`Person_SayHello` and `Student_SayHello` on `D` both read `_Person_SayHello` from slot 1,
run it, and append exactly `Hello world, I'm <name>!` and a newline to the output; a
Person built by `Person_New` with the same name appends the same text. -/
theorem C2_inheritance (σ0 σ τ0 τ : State) (age : Nat) (name : String) (gpa : Double)
    (D B : Nat) (hWF : σ0.WF)
    (hNew : Student_New age name gpa (staticInit σ0) = (some D, σ))
    (hWFp : τ0.WF)
    (hNewP : Person_New age name (staticInit τ0) = (some B, τ)) :
    σ.slot D Person_VTI_SayHello = some Fn._Person_SayHello ∧
    σ.slot D Student_VTI_SayHello = some Fn._Person_SayHello ∧
    Person_SayHello D σ = _Person_SayHello D (σ.logCall Fn._Person_SayHello D) ∧
    Student_SayHello D σ = _Person_SayHello D (σ.logCall Fn._Person_SayHello D) ∧
    Person_SayHello D σ =
      some ((σ.logCall Fn._Person_SayHello D).print ("Hello world, I'm " ++ name ++ "!\n")) ∧
    Student_SayHello D σ =
      some ((σ.logCall Fn._Person_SayHello D).print ("Hello world, I'm " ++ name ++ "!\n")) ∧
    Person_SayHello B τ =
      some ((τ.logCall Fn._Person_SayHello B).print ("Hello world, I'm " ++ name ++ "!\n")) := by
  obtain ⟨hR, hL, -, -⟩ := Student_New_ready age name gpa _ σ D (staticInit_ready σ0 hWF) hNew
  obtain ⟨hRp, hLp, -, -⟩ := Person_New_ready age name _ τ B (staticInit_ready τ0 hWFp) hNewP
  have hs : σ.slot D Person_VTI_SayHello = some Fn._Person_SayHello := by
    rw [slot_newStudent σ D _ age name gpa hR hL]; rfl
  have hsp : τ.slot B Person_VTI_SayHello = some Fn._Person_SayHello := by
    rw [slot_newPerson τ B _ age name hRp hLp]; rfl
  have hrun := dispatchVoid_SayHello σ D Person_VTI_SayHello _ hs hL
  have hrunp := dispatchVoid_SayHello τ B Person_VTI_SayHello _ hsp hLp
  have himpl : _Person_SayHello D (σ.logCall Fn._Person_SayHello D) =
      some ((σ.logCall Fn._Person_SayHello D).print ("Hello world, I'm " ++ name ++ "!\n")) := by
    simp [_Person_SayHello, load_logCall, hL, newStudent, Obj.asPerson]
  exact ⟨hs, hs, hrun.trans himpl.symm, hrun.trans himpl.symm, hrun, hrun, hrunp⟩

/-- Witness for C2: Liam as a Student and Liam as a Person, each at address 0. -/
theorem C2_inheritance_witness :
    (State.initial 1).WF ∧
    Student_New 19 "Liam" lit_3_8 (staticInit (State.initial 1)) = (some 0, liamState) ∧
    Person_New 19 "Liam" (staticInit (State.initial 1)) = (some 0, liamPersonState) ∧
    Person_SayHello 0 liamState =
      some ((liamState.logCall Fn._Person_SayHello 0).print
        ("Hello world, I'm " ++ "Liam" ++ "!\n")) ∧
    Student_SayHello 0 liamState =
      some ((liamState.logCall Fn._Person_SayHello 0).print
        ("Hello world, I'm " ++ "Liam" ++ "!\n")) ∧
    Person_SayHello 0 liamPersonState =
      some ((liamPersonState.logCall Fn._Person_SayHello 0).print
        ("Hello world, I'm " ++ "Liam" ++ "!\n")) :=
  have h := C2_inheritance (State.initial 1) liamState (State.initial 1) liamPersonState
    19 "Liam" lit_3_8 0 0 (by decide) rfl (by decide) rfl
  ⟨by decide, rfl, rfl, h.2.2.2.2.1, h.2.2.2.2.2.1, h.2.2.2.2.2.2⟩

/-! ## Table construction and slot layout -/

/-- C3. After both static initialisers the Student table's parent link is the Person
table; every Person slot `i < 6` holds an entry point; Student slot 2 (TalkAboutSelf)
holds `_Student_TalkAboutSelf`, every other Student slot `i < 6` holds the entry point
of Person slot `i`; and slot 6 holds `_Student_GetGPA`. -/
theorem C3_table_construction (σ0 : State) (hWF : σ0.WF) :
    (staticInit σ0)._Student_VTable.Parent = some VTableRef._Person_VTable ∧
    (staticInit σ0).vtable VTableRef._Person_VTable = (staticInit σ0)._Person_VTable ∧
    (staticInit σ0)._Person_VTable.Calls = some CallListRef._Person_VCallList ∧
    (staticInit σ0)._Student_VTable.Calls = some CallListRef._Student_VCallList ∧
    (∀ i, i < 6 →
      (∃ f, (staticInit σ0)._Person_VCallList[i]? = some (some f)) ∧
      (if i = Person_VTI_TalkAboutSelf then
        (staticInit σ0)._Student_VCallList[i]? = some (some Fn._Student_TalkAboutSelf)
      else
        (staticInit σ0)._Student_VCallList[i]? = (staticInit σ0)._Person_VCallList[i]?)) ∧
    (staticInit σ0)._Student_VCallList[6]? = some (some Fn._Student_GetGPA) ∧
    (staticInit σ0)._Student_VCallList[Student_VTI_GetGPA]? =
      some (some Fn._Student_GetGPA) := by
  have hR := staticInit_ready σ0 hWF
  refine ⟨rfl, rfl, rfl, rfl, ?_, ?_, ?_⟩
  · intro i hi
    rw [hR.pCalls, hR.sCalls]
    interval_cases i <;> simp [personCalls, studentCalls, Person_VTI_TalkAboutSelf]
  · rw [hR.sCalls]; rfl
  · rw [hR.sCalls]; rfl

/-- Witness for C3: the zero-initialised globals at program start. -/
theorem C3_table_construction_witness :
    (State.initial 0).WF ∧
    (staticInit (State.initial 0))._Student_VTable.Parent = some VTableRef._Person_VTable ∧
    (staticInit (State.initial 0))._Student_VCallList[6]? = some (some Fn._Student_GetGPA) :=
  have h := C3_table_construction (State.initial 0) (by decide)
  ⟨by decide, h.1, h.2.2.2.2.2.1⟩

/-- C4. The Student call list is at least as long as the Person call list (7 and 6, as
declared and after initialisation); every operation Person defines has the same slot
index in both numberings, and after initialisation that slot of either table holds an
entry point implementing that operation; the slot of GetGPA lies inside the Student
list and is strictly greater than every Person slot index. -/
theorem C4_slot_layout (σ0 : State) (hWF : σ0.WF) :
    Person_VCallList_size ≤ Student_VCallList_size ∧
    (staticInit σ0)._Person_VCallList.length = Person_VCallList_size ∧
    (staticInit σ0)._Student_VCallList.length = Student_VCallList_size ∧
    (∀ op i, Person_VTI op = some i →
      i < Person_VCallList_size ∧
      Student_VTI op = some i ∧
      (∃ f, (staticInit σ0)._Person_VCallList[i]? = some (some f) ∧ f.operation = op) ∧
      (∃ f, (staticInit σ0)._Student_VCallList[i]? = some (some f) ∧ f.operation = op) ∧
      i < Student_VTI_GetGPA) ∧
    (∀ i, i < Person_VCallList_size → ∃ op, Person_VTI op = some i) ∧
    Person_VTI Operation.GetGPA = none ∧
    Student_VTI Operation.GetGPA = some Student_VTI_GetGPA ∧
    Student_VTI_GetGPA < Student_VCallList_size := by
  have hR := staticInit_ready σ0 hWF
  refine ⟨by decide, ?_, ?_, ?_, ?_, rfl, rfl, by decide⟩
  · rw [hR.pCalls]; rfl
  · rw [hR.sCalls]; rfl
  · intro op i h
    rw [hR.pCalls, hR.sCalls]
    cases op <;> simp [Person_VTI] at h <;> subst h <;>
      exact ⟨by decide, rfl, ⟨_, rfl, rfl⟩, ⟨_, rfl, rfl⟩, by decide⟩
  · intro i hi
    simp only [Person_VCallList_size] at hi
    interval_cases i
    · exact ⟨Operation.Delete, rfl⟩
    · exact ⟨Operation.SayHello, rfl⟩
    · exact ⟨Operation.TalkAboutSelf, rfl⟩
    · exact ⟨Operation.Grow, rfl⟩
    · exact ⟨Operation.GetAge, rfl⟩
    · exact ⟨Operation.GetName, rfl⟩

/-- Witness for C4: the zero-initialised globals at program start. -/
theorem C4_slot_layout_witness :
    (State.initial 0).WF ∧
    (staticInit (State.initial 0))._Person_VCallList.length = Person_VCallList_size ∧
    (staticInit (State.initial 0))._Student_VCallList.length = Student_VCallList_size ∧
    Student_VTI_GetGPA < Student_VCallList_size :=
  have h := C4_slot_layout (State.initial 0) (by decide)
  ⟨by decide, h.2.1, h.2.2.1, h.2.2.2.2.2.2.2⟩

/-! ## Sequences of operations -/

theorem load_store_self (σ : State) (p : Nat) (o o1 : Obj) (hL : σ.load p = some o) :
    (σ.store p o1).load p = some o1 := by
  have hlt : p < σ.heap.length := by
    by_contra hge
    have : σ.heap[p]? = none := List.getElem?_eq_none (Nat.le_of_not_lt hge)
    simp [State.load, this] at hL
  simp [State.load, State.store, hlt]

theorem Op.run_student (op : Op) (σ : State) (D a : Nat) (n : String) (g : Double)
    (hR : σ.Ready) (hL : σ.load D = some (newStudent a n g)) :
    ∃ σ1, op.run D σ = some σ1 ∧ σ1.Ready ∧
      σ1.load D = some (newStudent (if op.isGrow then (a + 1) % 2 ^ 32 else a) n g) := by
  have hs := fun i => slot_newStudent σ D i a n g hR hL
  have hgrow := dispatchVoid_Grow σ D Person_VTI_Grow _ (by rw [hs]; rfl) hL
  have hRl : ∀ f, (σ.logCall f D).Ready := fun _ => ⟨hR.pTable, hR.pCalls, hR.sTable, hR.sCalls⟩
  cases op
  case Person_Grow =>
    exact ⟨_, hgrow, ⟨hR.pTable, hR.pCalls, hR.sTable, hR.sCalls⟩,
      load_store_self _ D _ _ ((load_logCall σ _ D D).trans hL)⟩
  case Student_Grow =>
    exact ⟨_, hgrow, ⟨hR.pTable, hR.pCalls, hR.sTable, hR.sCalls⟩,
      load_store_self _ D _ _ ((load_logCall σ _ D D).trans hL)⟩
  case Person_SayHello =>
    exact ⟨_, dispatchVoid_SayHello σ D Person_VTI_SayHello _ (by rw [hs]; rfl) hL,
      ⟨hR.pTable, hR.pCalls, hR.sTable, hR.sCalls⟩, hL⟩
  case Student_SayHello =>
    exact ⟨_, dispatchVoid_SayHello σ D Person_VTI_SayHello _ (by rw [hs]; rfl) hL,
      ⟨hR.pTable, hR.pCalls, hR.sTable, hR.sCalls⟩, hL⟩
  case Person_TalkAboutSelf =>
    exact ⟨_, dispatchVoid_Student_TalkAboutSelf σ D Person_VTI_TalkAboutSelf _
      (by rw [hs]; rfl) hL, ⟨hR.pTable, hR.pCalls, hR.sTable, hR.sCalls⟩, hL⟩
  case Student_TalkAboutSelf =>
    exact ⟨_, dispatchVoid_Student_TalkAboutSelf σ D Person_VTI_TalkAboutSelf _
      (by rw [hs]; rfl) hL, ⟨hR.pTable, hR.pCalls, hR.sTable, hR.sCalls⟩, hL⟩
  case Person_GetAge =>
    refine ⟨σ.logCall Fn._Person_GetAge D, ?_, hRl _, hL⟩
    simp [Op.run, CMethodInheritance.Person_GetAge,
      dispatchU32_GetAge σ D Person_VTI_GetAge _ (by rw [hs]; rfl) hL]
  case Student_GetAge =>
    refine ⟨σ.logCall Fn._Person_GetAge D, ?_, hRl _, hL⟩
    simp [Op.run, CMethodInheritance.Student_GetAge, Student_VTI_GetAge,
      dispatchU32_GetAge σ D Person_VTI_GetAge _ (by rw [hs]; rfl) hL]
  case Person_GetName =>
    refine ⟨σ.logCall Fn._Person_GetName D, ?_, hRl _, hL⟩
    simp [Op.run, CMethodInheritance.Person_GetName,
      dispatchStr_GetName σ D Person_VTI_GetName _ (by rw [hs]; rfl) hL]
  case Student_GetName =>
    refine ⟨σ.logCall Fn._Person_GetName D, ?_, hRl _, hL⟩
    simp [Op.run, CMethodInheritance.Student_GetName, Student_VTI_GetName,
      dispatchStr_GetName σ D Person_VTI_GetName _ (by rw [hs]; rfl) hL]
  case Student_GetGPA =>
    refine ⟨σ.logCall Fn._Student_GetGPA D, ?_, hRl _, hL⟩
    simp [Op.run, CMethodInheritance.Student_GetGPA,
      dispatchDbl_GetGPA σ D Student_VTI_GetGPA _ (by rw [hs]; rfl) hL]

theorem runOps_student (ops : List Op) (σ : State) (D a : Nat) (n : String) (g : Double)
    (hR : σ.Ready) (hL : σ.load D = some (newStudent a n g)) :
    ∃ σ1, runOps ops D σ = some σ1 ∧ σ1.Ready ∧
      σ1.load D = some (newStudent (ageAfter ops a) n g) := by
  induction ops generalizing σ a with
  | nil => exact ⟨σ, rfl, hR, hL⟩
  | cons op ops ih =>
    obtain ⟨σ1, h1, hR1, hL1⟩ := Op.run_student op σ D a n g hR hL
    obtain ⟨σ2, h2, hR2, hL2⟩ := ih σ1 _ hR1 hL1
    exact ⟨σ2, by simp [runOps, h1, h2], hR2, hL2⟩

theorem Op.run_person (op : Op) (σ : State) (B a : Nat) (n : String)
    (hop : op.isPersonWrapper = true)
    (hR : σ.Ready) (hL : σ.load B = some (newPerson a n)) :
    ∃ σ1, op.run B σ = some σ1 ∧ σ1.Ready ∧
      σ1.load B = some (newPerson (if op.isGrow then (a + 1) % 2 ^ 32 else a) n) := by
  have hs := fun i => slot_newPerson σ B i a n hR hL
  have hRl : ∀ f, (σ.logCall f B).Ready := fun _ => ⟨hR.pTable, hR.pCalls, hR.sTable, hR.sCalls⟩
  cases op <;> simp [Op.isPersonWrapper] at hop
  case Person_Grow =>
    exact ⟨_, dispatchVoid_Grow σ B Person_VTI_Grow _ (by rw [hs]; rfl) hL,
      ⟨hR.pTable, hR.pCalls, hR.sTable, hR.sCalls⟩,
      load_store_self _ B _ _ ((load_logCall σ _ B B).trans hL)⟩
  case Person_SayHello =>
    exact ⟨_, dispatchVoid_SayHello σ B Person_VTI_SayHello _ (by rw [hs]; rfl) hL,
      ⟨hR.pTable, hR.pCalls, hR.sTable, hR.sCalls⟩, hL⟩
  case Person_TalkAboutSelf =>
    exact ⟨_, dispatchVoid_Person_TalkAboutSelf σ B Person_VTI_TalkAboutSelf _
      (by rw [hs]; rfl) hL, ⟨hR.pTable, hR.pCalls, hR.sTable, hR.sCalls⟩, hL⟩
  case Person_GetAge =>
    refine ⟨σ.logCall Fn._Person_GetAge B, ?_, hRl _, hL⟩
    simp [Op.run, CMethodInheritance.Person_GetAge,
      dispatchU32_GetAge σ B Person_VTI_GetAge _ (by rw [hs]; rfl) hL]
  case Person_GetName =>
    refine ⟨σ.logCall Fn._Person_GetName B, ?_, hRl _, hL⟩
    simp [Op.run, CMethodInheritance.Person_GetName,
      dispatchStr_GetName σ B Person_VTI_GetName _ (by rw [hs]; rfl) hL]

theorem runOps_person (ops : List Op) (σ : State) (B a : Nat) (n : String)
    (hops : ∀ op ∈ ops, op.isPersonWrapper = true)
    (hR : σ.Ready) (hL : σ.load B = some (newPerson a n)) :
    ∃ σ1, runOps ops B σ = some σ1 ∧ σ1.Ready ∧
      σ1.load B = some (newPerson (ageAfter ops a) n) := by
  induction ops generalizing σ a with
  | nil => exact ⟨σ, rfl, hR, hL⟩
  | cons op ops ih =>
    obtain ⟨σ1, h1, hR1, hL1⟩ :=
      Op.run_person op σ B a n (hops op (List.mem_cons_self _ _)) hR hL
    obtain ⟨σ2, h2, hR2, hL2⟩ :=
      ih σ1 _ (fun o ho => hops o (List.mem_cons_of_mem _ ho)) hR1 hL1
    exact ⟨σ2, by simp [runOps, h1, h2], hR2, hL2⟩

theorem ageAfter_noGrow (ops : List Op) (a : Nat) (h : ∀ op ∈ ops, op.isGrow = false) :
    ageAfter ops a = a := by
  induction ops with
  | nil => rfl
  | cons op ops ih =>
    have h1 : op.isGrow = false := h op (List.mem_cons_self _ _)
    simp only [ageAfter, h1]
    exact ih (fun o ho => h o (List.mem_cons_of_mem _ ho))

theorem ageAfter_lt (ops : List Op) (a : Nat) (h : a < 2 ^ 32) : ageAfter ops a < 2 ^ 32 := by
  induction ops generalizing a with
  | nil => exact h
  | cons op ops ih =>
    simp only [ageAfter]
    apply ih
    split
    · exact Nat.mod_lt _ (by decide)
    · exact h

theorem getAge_person (σ : State) (B a : Nat) (n : String)
    (hR : σ.Ready) (hL : σ.load B = some (newPerson a n)) :
    Person_GetAge B σ = some (a, σ.logCall Fn._Person_GetAge B) :=
  dispatchU32_GetAge σ B Person_VTI_GetAge _
    (by rw [slot_newPerson σ B _ a n hR hL]; rfl) hL

theorem getName_person (σ : State) (B a : Nat) (n : String)
    (hR : σ.Ready) (hL : σ.load B = some (newPerson a n)) :
    Person_GetName B σ = some (n, σ.logCall Fn._Person_GetName B) :=
  dispatchStr_GetName σ B Person_VTI_GetName _
    (by rw [slot_newPerson σ B _ a n hR hL]; rfl) hL

theorem getAge_student (σ : State) (D a : Nat) (n : String) (g : Double)
    (hR : σ.Ready) (hL : σ.load D = some (newStudent a n g)) :
    Person_GetAge D σ = some (a, σ.logCall Fn._Person_GetAge D) :=
  dispatchU32_GetAge σ D Person_VTI_GetAge _
    (by rw [slot_newStudent σ D _ a n g hR hL]; rfl) hL

theorem getName_student (σ : State) (D a : Nat) (n : String) (g : Double)
    (hR : σ.Ready) (hL : σ.load D = some (newStudent a n g)) :
    Person_GetName D σ = some (n, σ.logCall Fn._Person_GetName D) :=
  dispatchStr_GetName σ D Person_VTI_GetName _
    (by rw [slot_newStudent σ D _ a n g hR hL]; rfl) hL

theorem getGPA_student (σ : State) (D a : Nat) (n : String) (g : Double)
    (hR : σ.Ready) (hL : σ.load D = some (newStudent a n g)) :
    Student_GetGPA D σ = some (g, σ.logCall Fn._Student_GetGPA D) :=
  dispatchDbl_GetGPA σ D Student_VTI_GetGPA _
    (by rw [slot_newStudent σ D _ a n g hR hL]; rfl) hL

/-! ## Accessors, age increment, GPA -/

/-- C5. For a Person `B` returned by `Person_New a n` on initialised tables,
`Person_GetAge` returns `a` (any age, so any `uint32_t`) and `Person_GetName` returns `n`, and they still do after any
sequence of `Person_GetAge`, `Person_GetName`, `Person_SayHello`, `Person_TalkAboutSelf`
calls on `B` (every such sequence runs to completion). The same holds for a Student `D`
returned by `Student_New a n g`, read through the `Person_*` or the `Student_*`
accessors, after any sequence of wrappers other than the two `Grow` wrappers. -/
theorem C5_accessors (σ0 σ τ0 τ : State) (a : Nat) (n : String) (g : Double) (B D : Nat)
    (hWF : σ0.WF)
    (hNewP : Person_New a n (staticInit σ0) = (some B, σ))
    (hWFs : τ0.WF)
    (hNewS : Student_New a n g (staticInit τ0) = (some D, τ)) :
    Person_GetAge B σ = some (a, σ.logCall Fn._Person_GetAge B) ∧
    Person_GetName B σ = some (n, σ.logCall Fn._Person_GetName B) ∧
    Person_GetAge D τ = some (a, τ.logCall Fn._Person_GetAge D) ∧
    Person_GetName D τ = some (n, τ.logCall Fn._Person_GetName D) ∧
    (∀ ops : List Op, (∀ op ∈ ops, op.isPersonWrapper = true ∧ op.isGrow = false) →
      ∃ σ1, runOps ops B σ = some σ1 ∧
        (Person_GetAge B σ1).map Prod.fst = some a ∧
        (Person_GetName B σ1).map Prod.fst = some n) ∧
    (∀ ops : List Op, (∀ op ∈ ops, op.isGrow = false) →
      ∃ τ1, runOps ops D τ = some τ1 ∧
        (Person_GetAge D τ1).map Prod.fst = some a ∧
        (Person_GetName D τ1).map Prod.fst = some n ∧
        (Student_GetAge D τ1).map Prod.fst = some a ∧
        (Student_GetName D τ1).map Prod.fst = some n) := by
  obtain ⟨hR, hL, -, -⟩ := Person_New_ready a n _ σ B (staticInit_ready σ0 hWF) hNewP
  obtain ⟨hRs, hLs, -, -⟩ := Student_New_ready a n g _ τ D (staticInit_ready τ0 hWFs) hNewS
  refine ⟨getAge_person σ B a n hR hL, getName_person σ B a n hR hL,
    getAge_student τ D a n g hRs hLs, getName_student τ D a n g hRs hLs, ?_, ?_⟩
  · intro ops hops
    obtain ⟨σ1, h1, hR1, hL1⟩ := runOps_person ops σ B a n (fun o ho => (hops o ho).1) hR hL
    rw [ageAfter_noGrow ops a (fun o ho => (hops o ho).2)] at hL1
    exact ⟨σ1, h1, by rw [getAge_person σ1 B a n hR1 hL1]; rfl,
      by rw [getName_person σ1 B a n hR1 hL1]; rfl⟩
  · intro ops hops
    obtain ⟨τ1, h1, hR1, hL1⟩ := runOps_student ops τ D a n g hRs hLs
    rw [ageAfter_noGrow ops a hops] at hL1
    exact ⟨τ1, h1, by rw [getAge_student τ1 D a n g hR1 hL1]; rfl,
      by rw [getName_student τ1 D a n g hR1 hL1]; rfl,
      by rw [Student_GetAge, Student_VTI_GetAge, ← Person_GetAge,
        getAge_student τ1 D a n g hR1 hL1]; rfl,
      by rw [Student_GetName, Student_VTI_GetName, ← Person_GetName,
        getName_student τ1 D a n g hR1 hL1]; rfl⟩

/-- Witness for C5: Liam as a Person and as a Student, greeted, described and read. -/
theorem C5_accessors_witness :
    (State.initial 1).WF ∧
    Person_New 19 "Liam" (staticInit (State.initial 1)) = (some 0, liamPersonState) ∧
    Student_New 19 "Liam" lit_3_8 (staticInit (State.initial 1)) = (some 0, liamState) ∧
    (∃ σ1, runOps [Op.Person_SayHello, Op.Person_TalkAboutSelf, Op.Person_GetAge,
          Op.Person_GetName] 0 liamPersonState = some σ1 ∧
        (Person_GetAge 0 σ1).map Prod.fst = some 19 ∧
        (Person_GetName 0 σ1).map Prod.fst = some "Liam") ∧
    (∃ τ1, runOps [Op.Student_SayHello, Op.Person_TalkAboutSelf, Op.Student_GetGPA] 0
          liamState = some τ1 ∧
        (Person_GetAge 0 τ1).map Prod.fst = some 19 ∧
        (Person_GetName 0 τ1).map Prod.fst = some "Liam" ∧
        (Student_GetAge 0 τ1).map Prod.fst = some 19 ∧
        (Student_GetName 0 τ1).map Prod.fst = some "Liam") :=
  have h := C5_accessors (State.initial 1) liamPersonState (State.initial 1) liamState
    19 "Liam" lit_3_8 0 0 (by decide) rfl (by decide) rfl
  ⟨by decide, rfl, rfl, h.2.2.2.2.1 _ (by decide), h.2.2.2.2.2 _ (by decide)⟩

/-- C6 as stated fails at the maximum age: a Person built with age 4294967295 reports
age 0 after one `Person_Grow`, not 4294967296. -/
theorem C6_counterexample :
    Person_New 4294967295 "Liam" (staticInit (State.initial 1)) = (some 0, maxAgeState) ∧
    (Person_GetAge 0 maxAgeState).map Prod.fst = some 4294967295 ∧
    ((Person_Grow 0 maxAgeState).bind fun σ => (Person_GetAge 0 σ).map Prod.fst) = some 0 ∧
    ((Person_Grow 0 maxAgeState).bind fun σ => (Person_GetAge 0 σ).map Prod.fst) ≠
      some (4294967295 + 1) := by
  refine ⟨rfl, ?_, ?_, ?_⟩ <;> decide

/-- C6, amended. For a Person or Student built with a `uint32_t` age and then taken
through any sequence of wrapper calls, if `Person_GetAge` currently returns `a`, then
after one `Person_Grow` it returns `(a + 1) mod 2 ^ 32`: that is `a + 1` whenever
`a < 4294967295`, and `0` when `a = 4294967295`. -/
theorem C6_grow (σ0 σ τ0 τ : State) (a0 : Nat) (n : String) (g : Double) (B D : Nat)
    (ha : a0 < 2 ^ 32) (hWF : σ0.WF)
    (hNewP : Person_New a0 n (staticInit σ0) = (some B, σ))
    (hWFs : τ0.WF)
    (hNewS : Student_New a0 n g (staticInit τ0) = (some D, τ)) :
    (∀ ops : List Op, (∀ op ∈ ops, op.isPersonWrapper = true) →
      ∃ σ1 σ2 a, runOps ops B σ = some σ1 ∧
        (Person_GetAge B σ1).map Prod.fst = some a ∧ a < 2 ^ 32 ∧
        Person_Grow B σ1 = some σ2 ∧
        (Person_GetAge B σ2).map Prod.fst = some ((a + 1) % 2 ^ 32) ∧
        (Person_GetAge B σ2).map Prod.fst = some (if a = 4294967295 then 0 else a + 1)) ∧
    (∀ ops : List Op,
      ∃ τ1 τ2 a, runOps ops D τ = some τ1 ∧
        (Person_GetAge D τ1).map Prod.fst = some a ∧ a < 2 ^ 32 ∧
        Person_Grow D τ1 = some τ2 ∧
        (Person_GetAge D τ2).map Prod.fst = some ((a + 1) % 2 ^ 32) ∧
        (Person_GetAge D τ2).map Prod.fst = some (if a = 4294967295 then 0 else a + 1)) := by
  obtain ⟨hR, hL, -, -⟩ := Person_New_ready a0 n _ σ B (staticInit_ready σ0 hWF) hNewP
  obtain ⟨hRs, hLs, -, -⟩ := Student_New_ready a0 n g _ τ D (staticInit_ready τ0 hWFs) hNewS
  constructor
  · intro ops hops
    obtain ⟨σ1, h1, hR1, hL1⟩ := runOps_person ops σ B a0 n hops hR hL
    obtain ⟨σ2, h2, hR2, hL2⟩ := Op.run_person Op.Person_Grow σ1 B _ n rfl hR1 hL1
    have hget : (Person_GetAge B σ2).map Prod.fst = some ((ageAfter ops a0 + 1) % 2 ^ 32) := by
      rw [getAge_person σ2 B _ n hR2 hL2]; rfl
    have hlt := ageAfter_lt ops a0 ha
    refine ⟨σ1, σ2, ageAfter ops a0, h1, ?_, hlt, h2, hget, ?_⟩
    · rw [getAge_person σ1 B _ n hR1 hL1]; rfl
    · rw [hget]
      split
      · next heq => rw [heq]; rfl
      · next hne => rw [Nat.mod_eq_of_lt (by omega)]
  · intro ops
    obtain ⟨τ1, h1, hR1, hL1⟩ := runOps_student ops τ D a0 n g hRs hLs
    obtain ⟨τ2, h2, hR2, hL2⟩ := Op.run_student Op.Person_Grow τ1 D _ n g hR1 hL1
    have hget : (Person_GetAge D τ2).map Prod.fst = some ((ageAfter ops a0 + 1) % 2 ^ 32) := by
      rw [getAge_student τ2 D _ n g hR2 hL2]; rfl
    have hlt := ageAfter_lt ops a0 ha
    refine ⟨τ1, τ2, ageAfter ops a0, h1, ?_, hlt, h2, hget, ?_⟩
    · rw [getAge_student τ1 D _ n g hR1 hL1]; rfl
    · rw [hget]
      split
      · next heq => rw [heq]; rfl
      · next hne => rw [Nat.mod_eq_of_lt (by omega)]

/-- Witness for C6: Liam, aged 19, grows to 20 (as a Person after a greeting, as a
Student after one earlier `Student_Grow`, from 20 to 21). -/
theorem C6_grow_witness :
    (19 : Nat) < 2 ^ 32 ∧ (State.initial 1).WF ∧
    Person_New 19 "Liam" (staticInit (State.initial 1)) = (some 0, liamPersonState) ∧
    Student_New 19 "Liam" lit_3_8 (staticInit (State.initial 1)) = (some 0, liamState) ∧
    (∃ σ1 σ2 a, runOps [Op.Person_SayHello] 0 liamPersonState = some σ1 ∧
        (Person_GetAge 0 σ1).map Prod.fst = some a ∧ a < 2 ^ 32 ∧
        Person_Grow 0 σ1 = some σ2 ∧
        (Person_GetAge 0 σ2).map Prod.fst = some ((a + 1) % 2 ^ 32) ∧
        (Person_GetAge 0 σ2).map Prod.fst = some (if a = 4294967295 then 0 else a + 1)) ∧
    (∃ τ1 τ2 a, runOps [Op.Student_Grow] 0 liamState = some τ1 ∧
        (Person_GetAge 0 τ1).map Prod.fst = some a ∧ a < 2 ^ 32 ∧
        Person_Grow 0 τ1 = some τ2 ∧
        (Person_GetAge 0 τ2).map Prod.fst = some ((a + 1) % 2 ^ 32) ∧
        (Person_GetAge 0 τ2).map Prod.fst = some (if a = 4294967295 then 0 else a + 1)) :=
  have h := C6_grow (State.initial 1) liamPersonState (State.initial 1) liamState
    19 "Liam" lit_3_8 0 0 (by decide) (by decide) rfl (by decide) rfl
  ⟨by decide, by decide, rfl, rfl, h.1 _ (by decide), h.2 _⟩

/-- C7. For a Student `D` returned by `Student_New a n g` on initialised tables, every
finite sequence of wrapper calls on `D` (`Grow`, `SayHello`, `TalkAboutSelf`, `GetAge`,
`GetName` through `Person_*` or `Student_*`, and `Student_GetGPA` itself) runs to
completion, and afterwards `Student_GetGPA` and `_Student_GetGPA` both return `g`. -/
theorem C7_gpa_frame (σ0 σ : State) (a : Nat) (n : String) (g : Double) (D : Nat)
    (hWF : σ0.WF)
    (hNew : Student_New a n g (staticInit σ0) = (some D, σ)) :
    (Student_GetGPA D σ).map Prod.fst = some g ∧
    ∀ ops : List Op,
      ∃ σ1, runOps ops D σ = some σ1 ∧
        (Student_GetGPA D σ1).map Prod.fst = some g ∧
        _Student_GetGPA D σ1 = some g := by
  obtain ⟨hR, hL, -, -⟩ := Student_New_ready a n g _ σ D (staticInit_ready σ0 hWF) hNew
  refine ⟨by rw [getGPA_student σ D a n g hR hL]; rfl, ?_⟩
  intro ops
  obtain ⟨σ1, h1, hR1, hL1⟩ := runOps_student ops σ D a n g hR hL
  refine ⟨σ1, h1, by rw [getGPA_student σ1 D _ n g hR1 hL1]; rfl, ?_⟩
  simp [_Student_GetGPA, hL1, newStudent, Obj.asStudent]

/-- Witness for C7: Liam's GPA 3.8 after growing, greeting and describing. -/
theorem C7_gpa_frame_witness :
    (State.initial 1).WF ∧
    Student_New 19 "Liam" lit_3_8 (staticInit (State.initial 1)) = (some 0, liamState) ∧
    (Student_GetGPA 0 liamState).map Prod.fst = some lit_3_8 ∧
    ∃ σ1, runOps [Op.Person_Grow, Op.Student_Grow, Op.Person_SayHello,
        Op.Student_TalkAboutSelf, Op.Person_GetAge, Op.Student_GetName] 0 liamState = some σ1 ∧
      (Student_GetGPA 0 σ1).map Prod.fst = some lit_3_8 ∧
      _Student_GetGPA 0 σ1 = some lit_3_8 :=
  have h := C7_gpa_frame (State.initial 1) liamState 19 "Liam" lit_3_8 0 (by decide) rfl
  ⟨by decide, rfl, h.1, h.2 _⟩

/-! ## The demonstration run -/

theorem fmt_d_asInt32_of_lt (a : Nat) (h : a < 2 ^ 31) : fmt_d (asInt32 a) = Nat.repr a := by
  have h1 : a % 2 ^ 32 = a := Nat.mod_eq_of_lt (by omega)
  simp only [asInt32, h1, if_pos h]
  rfl

theorem FunctionTakingPerson_student (σ : State) (D a : Nat) (n : String) (g : Double)
    (hR : σ.Ready) (hL : σ.load D = some (newStudent a n g)) :
    FunctionTakingPerson D σ =
      some ((((σ.logCall Fn._Person_SayHello D).print
          ("Hello world, I'm " ++ n ++ "!\n")).logCall Fn._Student_TalkAboutSelf D).print
        ("I am " ++ fmt_d (asInt32 a) ++ " years old, and doing "
          ++ (if g.gt lit_2_6 then "Well" else "Poorly") ++ " in class!\n")) := by
  have h1 : Person_SayHello D σ = _ :=
    dispatchVoid_SayHello σ D Person_VTI_SayHello _
      (by rw [slot_newStudent σ D _ a n g hR hL]; rfl) hL
  have hR1 : ((σ.logCall Fn._Person_SayHello D).print
      ("Hello world, I'm " ++ n ++ "!\n")).Ready := ⟨hR.pTable, hR.pCalls, hR.sTable, hR.sCalls⟩
  have h2 : Person_TalkAboutSelf D ((σ.logCall Fn._Person_SayHello D).print
      ("Hello world, I'm " ++ n ++ "!\n")) = _ :=
    dispatchVoid_Student_TalkAboutSelf _ D Person_VTI_TalkAboutSelf _
      (by rw [slot_newStudent _ D _ a n g hR1 hL]; rfl) hL
  simp only [FunctionTakingPerson, h1]
  exact h2

/-- For ages below `2 ^ 31` the two lines are the greeting and the description with the
age in decimal. -/
theorem FunctionTakingPerson_output (σ0 σ : State) (a : Nat) (n : String) (g : Double)
    (D : Nat) (ha : a < 2 ^ 31) (hWF : σ0.WF)
    (hNew : Student_New a n g (staticInit σ0) = (some D, σ)) :
    (FunctionTakingPerson D σ).map State.out =
      some (σ0.out ++ ("Hello world, I'm " ++ n ++ "!\n")
        ++ ("I am " ++ Nat.repr a ++ " years old, and doing "
          ++ (if g.gt lit_2_6 then "Well" else "Poorly") ++ " in class!\n")) := by
  obtain ⟨hR, hL, hout, -⟩ := Student_New_ready a n g _ σ D (staticInit_ready σ0 hWF) hNew
  rw [FunctionTakingPerson_student σ D a n g hR hL, fmt_d_asInt32_of_lt a ha]
  simp only [Option.map, State.print, State.logCall, hout, staticInit_out]

/-- C8. On the instance `main` builds, `FunctionTakingPerson` prints exactly
`Hello world, I'm Liam!` and `I am 19 years old, and doing Well in class!`. On a Student
built with age 4294967295 the second line reads `I am -1 years old, ...`: the
`uint32_t` age is printed through `%d`, so it is not the age in decimal. -/
theorem C8_demo_and_signed_age :
    Student_New 19 "Liam" lit_3_8 (staticInit (State.initial 1)) = (some 0, liamState) ∧
    (FunctionTakingPerson 0 liamState).map State.out =
      some "Hello world, I'm Liam!\nI am 19 years old, and doing Well in class!\n" ∧
    Student_New 4294967295 "Liam" lit_3_8 (staticInit (State.initial 1)) =
      (some 0, maxAgeStudentState) ∧
    (Person_GetAge 0 maxAgeStudentState).map Prod.fst = some 4294967295 ∧
    (FunctionTakingPerson 0 maxAgeStudentState).map State.out =
      some "Hello world, I'm Liam!\nI am -1 years old, and doing Well in class!\n" ∧
    (FunctionTakingPerson 0 maxAgeStudentState).map State.out ≠
      some "Hello world, I'm Liam!\nI am 4294967295 years old, and doing Well in class!\n" := by
  set_option exponentiation.threshold 4096 in
  refine ⟨rfl, ?_, rfl, ?_, ?_, ?_⟩ <;> decide

/-! ## The judgement on the GPA -/

/-- The constants are the doubles nearest to 13/5 and 19/5, and 2 exactly: in units of
`2 ^ (-1074)`, five times the magnitude of `lit_2_6` exceeds `13 * 2 ^ 1074` by
`2 ^ 1023`, and five times the magnitude of `lit_3_8` falls short of `19 * 2 ^ 1074` by
`2 * 2 ^ 1023`, both less than five half units in the last place (`5 * 2 ^ 1022`). -/
theorem literals_nearest :
    (lit_2_6.sign = false ∧ 5 * lit_2_6.magnitude = 13 * 2 ^ 1074 + 2 ^ 1023) ∧
    (lit_3_8.sign = false ∧ 5 * lit_3_8.magnitude + 2 * 2 ^ 1023 = 19 * 2 ^ 1074) ∧
    (lit_2_0.sign = false ∧ lit_2_0.magnitude = 2 * 2 ^ 1074) := by
  set_option exponentiation.threshold 4096 in
  refine ⟨⟨rfl, ?_⟩, ⟨rfl, ?_⟩, ⟨rfl, ?_⟩⟩ <;> decide

theorem well_ne_poorly (p s : String) : p ++ "Well" ++ s ≠ p ++ "Poorly" ++ s := by
  intro h
  have h1 := congrArg String.data h
  simp only [String.data_append, List.append_assoc] at h1
  have h2 := List.append_cancel_left h1
  simp at h2

theorem Double.gt_false_iff_le (a b : Double) (ha : a.isNaN = false) (hb : b.isNaN = false) :
    a.gt b = false ↔ a.le b = true := by
  simp [Double.gt, Double.le, ha, hb]

theorem Double.nan_compare (a b : Double) (ha : a.isNaN = true) :
    a.gt b = false ∧ a.le b = false := by
  simp [Double.gt, Double.le, ha]

/-- C9 as stated fails for a NaN: a Student whose GPA is a NaN is reported as doing
`Poorly`, although `GPA <= 2.6` is false for it (and so is `GPA > 2.6`). -/
theorem C9_counterexample :
    Student_New 20 "Ann" quietNaN (staticInit (State.initial 1)) = (some 0, nanState) ∧
    (Student_GetGPA 0 nanState).map Prod.fst = some quietNaN ∧
    (Person_TalkAboutSelf 0 nanState).map State.out =
      some "I am 20 years old, and doing Poorly in class!\n" ∧
    (Student_TalkAboutSelf 0 nanState).map State.out =
      some "I am 20 years old, and doing Poorly in class!\n" ∧
    quietNaN.le lit_2_6 = false ∧ quietNaN.gt lit_2_6 = false := by
  set_option exponentiation.threshold 4096 in
  refine ⟨rfl, ?_, ?_, ?_, ?_, ?_⟩ <;> decide

/-- C9, amended. For a Student `D` returned by `Student_New a n g`, the line printed by
`Person_TalkAboutSelf` and by `Student_TalkAboutSelf` says `Well` exactly when
`g > 2.6` and `Poorly` exactly when `g > 2.6` is false; for a `g` that is not a NaN
that is exactly when `g <= 2.6`, and for a NaN the line says `Poorly` although
`g <= 2.6` is false. A GPA equal to 2.6 gives `Poorly`, and Student(20, "Ann", 2.0)
prints `I am 20 years old, and doing Poorly in class!`. -/
theorem C9_judgement (σ0 σ : State) (a : Nat) (n : String) (g : Double) (D : Nat)
    (hWF : σ0.WF)
    (hNew : Student_New a n g (staticInit σ0) = (some D, σ)) :
    Person_TalkAboutSelf D σ = Student_TalkAboutSelf D σ ∧
    (Person_TalkAboutSelf D σ =
        some ((σ.logCall Fn._Student_TalkAboutSelf D).print
          ("I am " ++ fmt_d (asInt32 a) ++ " years old, and doing " ++ "Well"
            ++ " in class!\n")) ↔ g.gt lit_2_6 = true) ∧
    (Person_TalkAboutSelf D σ =
        some ((σ.logCall Fn._Student_TalkAboutSelf D).print
          ("I am " ++ fmt_d (asInt32 a) ++ " years old, and doing " ++ "Poorly"
            ++ " in class!\n")) ↔ g.gt lit_2_6 = false) ∧
    (g.isNaN = false → (g.gt lit_2_6 = false ↔ g.le lit_2_6 = true)) ∧
    (g.isNaN = true → g.gt lit_2_6 = false ∧ g.le lit_2_6 = false) ∧
    lit_2_6.gt lit_2_6 = false ∧
    Student_New 20 "Ann" lit_2_0 (staticInit (State.initial 1)) = (some 0, annState) ∧
    (Person_TalkAboutSelf 0 annState).map State.out =
      some "I am 20 years old, and doing Poorly in class!\n" ∧
    Student_New 20 "Ann" lit_2_6 (staticInit (State.initial 1)) = (some 0, thresholdState) ∧
    (Person_TalkAboutSelf 0 thresholdState).map State.out =
      some "I am 20 years old, and doing Poorly in class!\n" := by
  obtain ⟨hR, hL, -, -⟩ := Student_New_ready a n g _ σ D (staticInit_ready σ0 hWF) hNew
  have hrun : Person_TalkAboutSelf D σ = _ :=
    dispatchVoid_Student_TalkAboutSelf σ D Person_VTI_TalkAboutSelf _
      (by rw [slot_newStudent σ D _ a n g hR hL]; rfl) hL
  have hne := well_ne_poorly (σ.out ++ ("I am " ++ fmt_d (asInt32 a) ++ " years old, and doing "))
    " in class!\n"
  have hinj : ∀ s t : String,
      some ((σ.logCall Fn._Student_TalkAboutSelf D).print s) =
        some ((σ.logCall Fn._Student_TalkAboutSelf D).print t) → σ.out ++ s = σ.out ++ t := by
    intro s t h
    exact congrArg State.out (Option.some.inj h)
  refine ⟨rfl, ?_, ?_, ?_, ?_, ?_, rfl, ?_, rfl, ?_⟩
  · rw [hrun]
    cases hg : g.gt lit_2_6
    · simp only [newStudent, Bool.false_eq_true, if_false, iff_false]
      intro h
      apply hne
      have := hinj _ _ h
      simpa [String.append_assoc] using this.symm
    · simp [newStudent]
  · rw [hrun]
    cases hg : g.gt lit_2_6
    · simp [newStudent]
    · simp only [newStudent, if_true, Bool.true_eq_false, iff_false]
      intro h
      apply hne
      have := hinj _ _ h
      simpa [String.append_assoc] using this
  · intro hnan
    exact Double.gt_false_iff_le g lit_2_6 hnan (by decide)
  · intro hnan
    exact Double.nan_compare g lit_2_6 hnan
  · set_option exponentiation.threshold 4096 in decide
  · set_option exponentiation.threshold 4096 in decide
  · set_option exponentiation.threshold 4096 in decide

/-- Witness for C9: Ann with GPA 2.0, which is not a NaN and not above 2.6, and Ann
with a NaN for a GPA. -/
theorem C9_judgement_witness :
    (State.initial 1).WF ∧
    Student_New 20 "Ann" lit_2_0 (staticInit (State.initial 1)) = (some 0, annState) ∧
    lit_2_0.isNaN = false ∧
    lit_2_0.gt lit_2_6 = false ∧
    lit_2_0.le lit_2_6 = true ∧
    Person_TalkAboutSelf 0 annState =
      some ((annState.logCall Fn._Student_TalkAboutSelf 0).print
        ("I am " ++ fmt_d (asInt32 20) ++ " years old, and doing " ++ "Poorly"
          ++ " in class!\n")) ∧
    Student_New 20 "Ann" quietNaN (staticInit (State.initial 1)) = (some 0, nanState) ∧
    quietNaN.isNaN = true ∧
    (quietNaN.gt lit_2_6 = false ∧ quietNaN.le lit_2_6 = false) :=
  have h := C9_judgement (State.initial 1) annState 20 "Ann" lit_2_0 0 (by decide) rfl
  have hn := C9_judgement (State.initial 1) nanState 20 "Ann" quietNaN 0 (by decide) rfl
  have hnan : lit_2_0.isNaN = false := by decide
  have hgt : lit_2_0.gt lit_2_6 = false := by
    set_option exponentiation.threshold 4096 in decide
  ⟨by decide, rfl, hnan, hgt, (h.2.2.2.1 hnan).mp hgt, h.2.2.1.mpr hgt, rfl, by decide,
    hn.2.2.2.2.1 (by decide)⟩

/-! ## Allocation failure -/

theorem Person_New_fail (a : Nat) (n : String) (σ : State) (h : σ.avail = 0) :
    Person_New a n σ = (none, σ) := by
  simp [Person_New, State.malloc, h]

theorem Student_New_fail (a : Nat) (n : String) (g : Double) (σ : State) (h : σ.avail = 0) :
    Student_New a n g σ = (none, σ) := by
  simp [Student_New, State.malloc, h]

theorem Student_New_ok (a : Nat) (n : String) (g : Double) (σ : State) (h : 0 < σ.avail) :
    Student_New a n g σ =
      (some σ.heap.length,
        { σ with heap := σ.heap ++ [some (newStudent a n g)], avail := σ.avail - 1 }) := by
  have h0 : σ.avail ≠ 0 := Nat.pos_iff_ne_zero.mp h
  simp [Student_New, State.malloc, h0, State.store, newStudent]

theorem main_unfold (σ : State) :
    main σ =
      match Student_New 19 "Liam" lit_3_8 (staticInit σ) with
      | (none, σ) => some (1, σ)
      | (some Liam, σ) =>
        match FunctionTakingPerson Liam σ with
        | some σ =>
          match Student_Delete Liam σ with
          | some σ => some (0, σ)
          | none => none
        | none => none := rfl

theorem Student_Delete_student (σ : State) (D a : Nat) (n : String) (g : Double)
    (hR : σ.Ready) (hL : σ.load D = some (newStudent a n g)) :
    Student_Delete D σ =
      some { σ.logCall Fn._Person_Delete D with heap := σ.heap.set D none } :=
  dispatchVoid_Delete σ D Student_VTI_Delete _
    (by rw [slot_newStudent σ D _ a n g hR hL]; rfl) hL

theorem FunctionTakingPerson_student_inv (σ : State) (D a : Nat) (n : String) (g : Double)
    (hR : σ.Ready) (hL : σ.load D = some (newStudent a n g)) :
    ∃ σ2, FunctionTakingPerson D σ = some σ2 ∧
      (σ2.Ready ∧ σ2.load D = some (newStudent a n g)) :=
  ⟨_, FunctionTakingPerson_student σ D a n g hR hL,
    ⟨hR.pTable, hR.pCalls, hR.sTable, hR.sCalls⟩, hL⟩

theorem main_ok (σ : State) (hWF : σ.WF) (h : 0 < σ.avail) :
    ∃ σ1, main σ = some (0, σ1) := by
  obtain ⟨D, σ1, hnew⟩ : ∃ D σ1,
      Student_New 19 "Liam" lit_3_8 (staticInit σ) = (some D, σ1) :=
    ⟨_, _, Student_New_ok 19 "Liam" lit_3_8 (staticInit σ) h⟩
  obtain ⟨hR1, hL1, -, -⟩ :=
    Student_New_ready 19 "Liam" lit_3_8 _ σ1 D (staticInit_ready σ hWF) hnew
  obtain ⟨σ2, hfun, hR2⟩ :=
    FunctionTakingPerson_student_inv σ1 D 19 "Liam" lit_3_8 hR1 hL1
  have hdel := Student_Delete_student σ2 D 19 "Liam" lit_3_8 hR2.1 hR2.2
  rw [main_unfold, hnew]
  simp only [hfun, hdel]
  exact ⟨_, rfl⟩

/-- C10. When the allocator has nothing to give, `Person_New` and `Student_New` return
`NULL` and leave the state as it was, and `main` returns status 1 in the state the two
static initialisers produce: same heap, same output, no indirect call logged. When the
allocation succeeds `main` returns status 0. -/
theorem C10_allocation_failure (σ : State) (a : Nat) (n : String) (g : Double)
    (hWF : σ.WF) :
    (σ.avail = 0 →
      Person_New a n σ = (none, σ) ∧
      Student_New a n g σ = (none, σ) ∧
      main σ = some (1, staticInit σ) ∧
      (staticInit σ).heap = σ.heap ∧
      (staticInit σ).out = σ.out ∧
      (staticInit σ).calls = σ.calls) ∧
    (0 < σ.avail → ∃ σ1, main σ = some (0, σ1)) := by
  constructor
  · intro h
    refine ⟨Person_New_fail a n σ h, Student_New_fail a n g σ h, ?_, rfl, rfl, rfl⟩
    have hf := Student_New_fail 19 "Liam" lit_3_8 (staticInit σ) h
    unfold staticInit at hf
    simp only [main, hf]
    rfl
  · intro h
    exact main_ok σ hWF h

/-- Witness for C10: program start with an allocator that fails, and with one that
succeeds once. -/
theorem C10_allocation_failure_witness :
    (State.initial 0).WF ∧ (State.initial 0).avail = 0 ∧
    (State.initial 1).WF ∧ 0 < (State.initial 1).avail ∧
    Person_New 19 "Liam" (State.initial 0) = (none, State.initial 0) ∧
    Student_New 19 "Liam" lit_3_8 (State.initial 0) = (none, State.initial 0) ∧
    main (State.initial 0) = some (1, staticInit (State.initial 0)) ∧
    (staticInit (State.initial 0)).out = "" ∧
    (staticInit (State.initial 0)).calls = [] ∧
    (∃ σ1, main (State.initial 1) = some (0, σ1)) :=
  have h0 := (C10_allocation_failure (State.initial 0) 19 "Liam" lit_3_8 (by decide)).1 rfl
  have h1 := (C10_allocation_failure (State.initial 1) 19 "Liam" lit_3_8 (by decide)).2
    (by decide)
  ⟨by decide, rfl, by decide, by decide, h0.1, h0.2.1, h0.2.2.1, h0.2.2.2.2.1, h0.2.2.2.2.2, h1⟩

/-! ## Method-table binding -/

theorem vtabAt_logCall (σ : State) (f : Fn) (p q : Nat) :
    (σ.logCall f p).vtabAt q = σ.vtabAt q := rfl

theorem vtabAt_print (σ : State) (s : String) (q : Nat) : (σ.print s).vtabAt q = σ.vtabAt q := rfl

theorem vtabAt_store_setPerson (σ : State) (p q : Nat) (o : Obj) (a : Nat)
    (hL : σ.load p = some o) :
    (σ.store p (o.setPerson { o.asPerson with Age := a })).vtabAt q = σ.vtabAt q := by
  by_cases hpq : p = q
  · subst hpq
    rw [State.vtabAt, load_store_self σ p o _ hL, State.vtabAt, hL]
    cases o <;> rfl
  · simp [State.vtabAt, State.load, State.store, List.getElem?_set_ne hpq]

theorem invoke_frame (f : Fn) (p : Nat) (σ σ1 : State) (v : Val)
    (hf : f ≠ Fn._Person_Delete) (h : invoke f p σ = some (v, σ1)) :
    σ1.tables = σ.tables ∧ ∀ q, σ1.vtabAt q = σ.vtabAt q := by
  cases f
  case _Person_Delete => exact absurd rfl hf
  case _Person_SayHello =>
    simp only [invoke, _Person_SayHello] at h
    split at h
    · simp only [Option.map_some', Option.some.injEq, Prod.mk.injEq] at h
      obtain ⟨-, rfl⟩ := h
      exact ⟨rfl, fun _ => rfl⟩
    · simp at h
  case _Person_TalkAboutSelf =>
    simp only [invoke, _Person_TalkAboutSelf] at h
    split at h
    · simp only [Option.map_some', Option.some.injEq, Prod.mk.injEq] at h
      obtain ⟨-, rfl⟩ := h
      exact ⟨rfl, fun _ => rfl⟩
    · simp at h
  case _Person_Grow =>
    simp only [invoke, _Person_Grow] at h
    split at h
    · next o hL =>
      simp only [Option.map_some', Option.some.injEq, Prod.mk.injEq] at h
      obtain ⟨-, rfl⟩ := h
      exact ⟨rfl, fun q => vtabAt_store_setPerson _ p q o _ hL⟩
    · simp at h
  case _Person_GetAge =>
    simp only [invoke, _Person_GetAge] at h
    split at h
    · simp only [Option.map_some', Option.some.injEq, Prod.mk.injEq] at h
      obtain ⟨-, rfl⟩ := h
      exact ⟨rfl, fun _ => rfl⟩
    · simp at h
  case _Person_GetName =>
    simp only [invoke, _Person_GetName] at h
    split at h
    · simp only [Option.map_some', Option.some.injEq, Prod.mk.injEq] at h
      obtain ⟨-, rfl⟩ := h
      exact ⟨rfl, fun _ => rfl⟩
    · simp at h
  case _Student_TalkAboutSelf =>
    simp only [invoke, _Student_TalkAboutSelf] at h
    split at h
    · split at h
      · simp only [Option.map_some', Option.some.injEq, Prod.mk.injEq] at h
        obtain ⟨-, rfl⟩ := h
        exact ⟨rfl, fun _ => rfl⟩
      · simp at h
    · simp at h
  case _Student_GetGPA =>
    simp only [invoke, _Student_GetGPA] at h
    split at h
    · split at h
      · simp only [Option.map_some', Option.some.injEq, Prod.mk.injEq] at h
        obtain ⟨-, rfl⟩ := h
        exact ⟨rfl, fun _ => rfl⟩
      · simp at h
    · simp at h

theorem slot_ne_delete (σ : State) (p i : Nat) (f : Fn) (hR : σ.Ready) (hi : i ≠ 0)
    (hs : σ.slot p i = some f) : f ≠ Fn._Person_Delete := by
  unfold State.slot at hs
  split at hs
  · split at hs
    · next t _ =>
      cases t
      · simp only [State.vtable, hR.pTable, State.callList, hR.pCalls] at hs
        rcases i with _ | _ | _ | _ | _ | _ | _ <;> simp [personCalls] at hs hi ⊢ <;>
          subst hs <;> simp
      · simp only [State.vtable, hR.sTable, State.callList, hR.sCalls] at hs
        rcases i with _ | _ | _ | _ | _ | _ | _ | _ <;> simp [studentCalls] at hs hi ⊢ <;>
          subst hs <;> simp
    · simp at hs
  · simp at hs

theorem dispatchVoid_frame (σ σ1 : State) (p i : Nat) (hR : σ.Ready) (hi : i ≠ 0)
    (h : dispatchVoid i p σ = some σ1) :
    σ1.tables = σ.tables ∧ ∀ q, σ1.vtabAt q = σ.vtabAt q := by
  unfold dispatchVoid at h
  split at h
  · next f hs =>
    split at h
    · next σ2 hinv =>
      cases h
      exact invoke_frame f p σ _ _ (slot_ne_delete σ p i f hR hi hs) hinv
    · simp at h
  · simp at h

theorem dispatchU32_frame (σ σ1 : State) (p i n : Nat) (hR : σ.Ready) (hi : i ≠ 0)
    (h : dispatchU32 i p σ = some (n, σ1)) :
    σ1.tables = σ.tables ∧ ∀ q, σ1.vtabAt q = σ.vtabAt q := by
  unfold dispatchU32 at h
  split at h
  · next f hs =>
    split at h
    · next m σ2 hinv =>
      cases h
      exact invoke_frame f p σ _ _ (slot_ne_delete σ p i f hR hi hs) hinv
    · simp at h
  · simp at h

theorem dispatchStr_frame (σ σ1 : State) (p i : Nat) (s : String) (hR : σ.Ready) (hi : i ≠ 0)
    (h : dispatchStr i p σ = some (s, σ1)) :
    σ1.tables = σ.tables ∧ ∀ q, σ1.vtabAt q = σ.vtabAt q := by
  unfold dispatchStr at h
  split at h
  · next f hs =>
    split at h
    · next m σ2 hinv =>
      cases h
      exact invoke_frame f p σ _ _ (slot_ne_delete σ p i f hR hi hs) hinv
    · simp at h
  · simp at h

theorem dispatchDbl_frame (σ σ1 : State) (p i : Nat) (d : Double) (hR : σ.Ready) (hi : i ≠ 0)
    (h : dispatchDbl i p σ = some (d, σ1)) :
    σ1.tables = σ.tables ∧ ∀ q, σ1.vtabAt q = σ.vtabAt q := by
  unfold dispatchDbl at h
  split at h
  · next f hs =>
    split at h
    · next m σ2 hinv =>
      cases h
      exact invoke_frame f p σ _ _ (slot_ne_delete σ p i f hR hi hs) hinv
    · simp at h
  · simp at h

theorem Op.run_frame (op : Op) (σ σ1 : State) (p : Nat) (hR : σ.Ready)
    (h : op.run p σ = some σ1) :
    σ1.tables = σ.tables ∧ ∀ q, σ1.vtabAt q = σ.vtabAt q := by
  cases op
  case Person_SayHello => exact dispatchVoid_frame σ σ1 p _ hR (by decide) h
  case Person_TalkAboutSelf => exact dispatchVoid_frame σ σ1 p _ hR (by decide) h
  case Person_Grow => exact dispatchVoid_frame σ σ1 p _ hR (by decide) h
  case Student_SayHello => exact dispatchVoid_frame σ σ1 p _ hR (by decide) h
  case Student_TalkAboutSelf => exact dispatchVoid_frame σ σ1 p _ hR (by decide) h
  case Student_Grow => exact dispatchVoid_frame σ σ1 p _ hR (by decide) h
  case Person_GetAge =>
    simp only [Op.run, Option.map_eq_some', Prod.exists, exists_eq_right] at h
    obtain ⟨n, hn⟩ := h
    exact dispatchU32_frame σ σ1 p _ n hR (by decide) hn
  case Student_GetAge =>
    simp only [Op.run, Option.map_eq_some', Prod.exists, exists_eq_right] at h
    obtain ⟨n, hn⟩ := h
    exact dispatchU32_frame σ σ1 p _ n hR (by decide) hn
  case Person_GetName =>
    simp only [Op.run, Option.map_eq_some', Prod.exists, exists_eq_right] at h
    obtain ⟨n, hn⟩ := h
    exact dispatchStr_frame σ σ1 p _ n hR (by decide) hn
  case Student_GetName =>
    simp only [Op.run, Option.map_eq_some', Prod.exists, exists_eq_right] at h
    obtain ⟨n, hn⟩ := h
    exact dispatchStr_frame σ σ1 p _ n hR (by decide) hn
  case Student_GetGPA =>
    simp only [Op.run, Option.map_eq_some', Prod.exists, exists_eq_right] at h
    obtain ⟨n, hn⟩ := h
    exact dispatchDbl_frame σ σ1 p _ n hR (by decide) hn

theorem ready_of_tables (σ σ1 : State) (hR : σ.Ready) (h : σ1.tables = σ.tables) :
    σ1.Ready := by
  simp only [State.tables, Prod.mk.injEq] at h
  obtain ⟨h1, h2, h3, h4⟩ := h
  exact ⟨h1.trans hR.pTable, h2.trans hR.pCalls, h3.trans hR.sTable, h4.trans hR.sCalls⟩

theorem runOps_frame (ops : List Op) (σ σ1 : State) (p : Nat) (hR : σ.Ready)
    (h : runOps ops p σ = some σ1) :
    σ1.tables = σ.tables ∧ ∀ q, σ1.vtabAt q = σ.vtabAt q := by
  induction ops generalizing σ with
  | nil =>
    simp only [runOps, Option.some.injEq] at h
    subst h
    exact ⟨rfl, fun _ => rfl⟩
  | cons op ops ih =>
    simp only [runOps] at h
    split at h
    · next σ2 h2 =>
      obtain ⟨ht, hv⟩ := Op.run_frame op σ σ2 p hR h2
      obtain ⟨ht1, hv1⟩ := ih σ2 (ready_of_tables σ σ2 hR ht) h
      exact ⟨ht1.trans ht, fun q => (hv1 q).trans (hv q)⟩
    · simp at h

/-- C11. A Person returned by `Person_New` has `_vtab` bound to the Person table; a
Student returned by `Student_New` has `Super._vtab` bound to the Student table, which is
not the Person table. On initialised tables, a call of any wrapper other than the two
release wrappers, on any address, that returns at all leaves the contents of both tables
and the method-table reference of every live record as they were; so does every
sequence of such calls, and every such sequence on the new Person (through `Person_*`)
or on the new Student (through any wrapper) does return. -/
theorem C11_binding_invariant (σ0 σ τ0 τ : State) (a : Nat) (n : String) (g : Double)
    (B D : Nat) (hWF : σ0.WF)
    (hNewP : Person_New a n (staticInit σ0) = (some B, σ))
    (hWFs : τ0.WF)
    (hNewS : Student_New a n g (staticInit τ0) = (some D, τ)) :
    σ.vtabAt B = some (some VTableRef._Person_VTable) ∧
    τ.vtabAt D = some (some VTableRef._Student_VTable) ∧
    τ.vtabAt D ≠ some (some VTableRef._Person_VTable) ∧
    (∀ (ρ ρ1 : State) (p : Nat) (op : Op), ρ.Ready → op.run p ρ = some ρ1 →
      ρ1.tables = ρ.tables ∧ ∀ q, ρ1.vtabAt q = ρ.vtabAt q) ∧
    (∀ (ρ ρ1 : State) (p : Nat) (ops : List Op), ρ.Ready → runOps ops p ρ = some ρ1 →
      ρ1.tables = ρ.tables ∧ ∀ q, ρ1.vtabAt q = ρ.vtabAt q) ∧
    (∀ ops : List Op, (∀ op ∈ ops, op.isPersonWrapper = true) →
      ∃ σ1, runOps ops B σ = some σ1 ∧ σ1.tables = σ.tables ∧
        σ1.vtabAt B = some (some VTableRef._Person_VTable)) ∧
    (∀ ops : List Op,
      ∃ τ1, runOps ops D τ = some τ1 ∧ τ1.tables = τ.tables ∧
        τ1.vtabAt D = some (some VTableRef._Student_VTable)) := by
  obtain ⟨hR, hL, -, -⟩ := Person_New_ready a n _ σ B (staticInit_ready σ0 hWF) hNewP
  obtain ⟨hRs, hLs, -, -⟩ := Student_New_ready a n g _ τ D (staticInit_ready τ0 hWFs) hNewS
  have hB : σ.vtabAt B = some (some VTableRef._Person_VTable) := by
    rw [State.vtabAt, hL]; rfl
  have hD : τ.vtabAt D = some (some VTableRef._Student_VTable) := by
    rw [State.vtabAt, hLs]; rfl
  refine ⟨hB, hD, ?_, ?_, ?_, ?_, ?_⟩
  · rw [hD]; decide
  · intro ρ ρ1 p op hρ h
    exact Op.run_frame op ρ ρ1 p hρ h
  · intro ρ ρ1 p ops hρ h
    exact runOps_frame ops ρ ρ1 p hρ h
  · intro ops hops
    obtain ⟨σ1, h1, -, -⟩ := runOps_person ops σ B a n hops hR hL
    obtain ⟨ht, hv⟩ := runOps_frame ops σ σ1 B hR h1
    exact ⟨σ1, h1, ht, (hv B).trans hB⟩
  · intro ops
    obtain ⟨τ1, h1, -, -⟩ := runOps_student ops τ D a n g hRs hLs
    obtain ⟨ht, hv⟩ := runOps_frame ops τ τ1 D hRs h1
    exact ⟨τ1, h1, ht, (hv D).trans hD⟩

/-- Witness for C11: Liam as a Person and as a Student, and one `Person_Grow` on the
Student. -/
theorem C11_binding_invariant_witness :
    (State.initial 1).WF ∧
    Person_New 19 "Liam" (staticInit (State.initial 1)) = (some 0, liamPersonState) ∧
    Student_New 19 "Liam" lit_3_8 (staticInit (State.initial 1)) = (some 0, liamState) ∧
    liamState.Ready ∧
    Op.Person_Grow.run 0 liamState = some liamGrownState ∧
    runOps [Op.Person_Grow] 0 liamState = some liamGrownState ∧
    liamPersonState.vtabAt 0 = some (some VTableRef._Person_VTable) ∧
    liamState.vtabAt 0 = some (some VTableRef._Student_VTable) ∧
    (liamGrownState.tables = liamState.tables ∧
      ∀ q, liamGrownState.vtabAt q = liamState.vtabAt q) ∧
    (liamGrownState.tables = liamState.tables ∧
      ∀ q, liamGrownState.vtabAt q = liamState.vtabAt q) ∧
    (∃ σ1, runOps [Op.Person_SayHello, Op.Person_Grow, Op.Person_GetName] 0
        liamPersonState = some σ1 ∧ σ1.tables = liamPersonState.tables ∧
      σ1.vtabAt 0 = some (some VTableRef._Person_VTable)) :=
  have h := C11_binding_invariant (State.initial 1) liamPersonState (State.initial 1)
    liamState 19 "Liam" lit_3_8 0 0 (by decide) rfl (by decide) rfl
  have hR : liamState.Ready := ⟨rfl, rfl, rfl, rfl⟩
  ⟨by decide, rfl, rfl, hR, rfl, rfl, h.1, h.2.1,
    h.2.2.2.1 liamState liamGrownState 0 Op.Person_Grow hR rfl,
    h.2.2.2.2.1 liamState liamGrownState 0 [Op.Person_Grow] hR rfl,
    h.2.2.2.2.2.1 _ (by decide)⟩

/-! ## Dispatch stays in bounds -/

theorem tableSizeAt_person (σ : State) (B : Nat) (o : Obj) (hR : σ.Ready)
    (hL : σ.load B = some o) (hv : o.asPerson._vtab = some VTableRef._Person_VTable) :
    σ.tableSizeAt B = some 6 := by
  simp only [State.tableSizeAt, hL, hv, State.vtable, hR.pTable, State.callList, hR.pCalls]
  rfl

theorem tableSizeAt_student (σ : State) (D : Nat) (o : Obj) (hR : σ.Ready)
    (hL : σ.load D = some o) (hv : o.asPerson._vtab = some VTableRef._Student_VTable) :
    σ.tableSizeAt D = some 7 := by
  simp only [State.tableSizeAt, hL, hv, State.vtable, hR.sTable, State.callList, hR.sCalls]
  rfl

theorem Person_Delete_person (σ : State) (B a : Nat) (n : String)
    (hR : σ.Ready) (hL : σ.load B = some (newPerson a n)) :
    Person_Delete B σ =
      some { σ.logCall Fn._Person_Delete B with heap := σ.heap.set B none } :=
  dispatchVoid_Delete σ B Person_VTI_Delete _
    (by rw [slot_newPerson σ B _ a n hR hL]; rfl) hL

theorem inBounds_person (σ : State) (B a : Nat) (n : String)
    (hR : σ.Ready) (hL : σ.load B = some (newPerson a n)) :
    σ.tableSizeAt B = some 6 ∧
    (∀ i ∈ personWrapperIndices, i < 6 ∧ ∃ f, σ.slot B i = some f) ∧
    (Person_Delete B σ).isSome = true ∧
    (∀ op : Op, op.isPersonWrapper = true → (op.run B σ).isSome = true) := by
  refine ⟨tableSizeAt_person σ B _ hR hL rfl, ?_, ?_, ?_⟩
  · intro i hi
    rw [slot_newPerson σ B i a n hR hL]
    simp only [personWrapperIndices, List.mem_cons, List.mem_singleton, List.mem_nil_iff,
      or_false] at hi
    rcases hi with rfl | rfl | rfl | rfl | rfl | rfl <;> exact ⟨by decide, _, rfl⟩
  · rw [Person_Delete_person σ B a n hR hL]; rfl
  · intro op hop
    obtain ⟨σ1, h1, -, -⟩ := Op.run_person op σ B a n hop hR hL
    rw [h1]; rfl

theorem inBounds_student (σ : State) (D a : Nat) (n : String) (g : Double)
    (hR : σ.Ready) (hL : σ.load D = some (newStudent a n g)) :
    σ.tableSizeAt D = some 7 ∧
    (∀ i ∈ personWrapperIndices ++ studentWrapperIndices, i < 7 ∧ ∃ f, σ.slot D i = some f) ∧
    (Person_Delete D σ).isSome = true ∧ (Student_Delete D σ).isSome = true ∧
    (∀ op : Op, (op.run D σ).isSome = true) := by
  refine ⟨tableSizeAt_student σ D _ hR hL rfl, ?_, ?_, ?_, ?_⟩
  · intro i hi
    rw [slot_newStudent σ D i a n g hR hL]
    simp only [personWrapperIndices, studentWrapperIndices, List.mem_append, List.mem_cons,
      List.mem_singleton, List.mem_nil_iff, or_false] at hi
    rcases hi with (rfl | rfl | rfl | rfl | rfl | rfl) | (rfl | rfl | rfl | rfl | rfl | rfl | rfl)
      <;> exact ⟨by decide, _, rfl⟩
  · rw [Person_Delete, ← Student_VTI_Delete, ← Student_Delete,
      Student_Delete_student σ D a n g hR hL]; rfl
  · rw [Student_Delete_student σ D a n g hR hL]; rfl
  · intro op
    obtain ⟨σ1, h1, -, -⟩ := Op.run_student op σ D a n g hR hL
    rw [h1]; rfl

/-- C12. After both static initialisers, for a Person built by `Person_New` (its table
has 6 slots) every index a `Person_*` wrapper reads is below 6 and holds an entry point;
for a Student built by `Student_New` (its table has 7 slots) every index a `Person_*` or
`Student_*` wrapper reads, `Student_VTI_GetGPA = Person_VTI_MaxVTI_ + 1 = 6` included,
is below 7 and holds an entry point; every wrapper call on them returns. The same holds
after any sequence of wrapper calls other than release. -/
theorem C12_dispatch_in_bounds (σ0 σ τ0 τ : State) (a : Nat) (n : String) (g : Double)
    (B D : Nat) (hWF : σ0.WF)
    (hNewP : Person_New a n (staticInit σ0) = (some B, σ))
    (hWFs : τ0.WF)
    (hNewS : Student_New a n g (staticInit τ0) = (some D, τ)) :
    Student_VTI_GetGPA = Person_VTI_MaxVTI_ + 1 ∧ Student_VTI_GetGPA = 6 ∧
    (∀ ops : List Op, (∀ op ∈ ops, op.isPersonWrapper = true) →
      ∃ σ1, runOps ops B σ = some σ1 ∧
        σ1.tableSizeAt B = some 6 ∧
        (∀ i ∈ personWrapperIndices, i < 6 ∧ ∃ f, σ1.slot B i = some f) ∧
        (Person_Delete B σ1).isSome = true ∧
        (∀ op : Op, op.isPersonWrapper = true → (op.run B σ1).isSome = true)) ∧
    (∀ ops : List Op,
      ∃ τ1, runOps ops D τ = some τ1 ∧
        τ1.tableSizeAt D = some 7 ∧
        (∀ i ∈ personWrapperIndices ++ studentWrapperIndices,
          i < 7 ∧ ∃ f, τ1.slot D i = some f) ∧
        (Person_Delete D τ1).isSome = true ∧ (Student_Delete D τ1).isSome = true ∧
        (∀ op : Op, (op.run D τ1).isSome = true)) := by
  obtain ⟨hR, hL, -, -⟩ := Person_New_ready a n _ σ B (staticInit_ready σ0 hWF) hNewP
  obtain ⟨hRs, hLs, -, -⟩ := Student_New_ready a n g _ τ D (staticInit_ready τ0 hWFs) hNewS
  refine ⟨rfl, rfl, ?_, ?_⟩
  · intro ops hops
    obtain ⟨σ1, h1, hR1, hL1⟩ := runOps_person ops σ B a n hops hR hL
    exact ⟨σ1, h1, inBounds_person σ1 B _ n hR1 hL1⟩
  · intro ops
    obtain ⟨τ1, h1, hR1, hL1⟩ := runOps_student ops τ D a n g hRs hLs
    exact ⟨τ1, h1, inBounds_student τ1 D _ n g hR1 hL1⟩

/-- Witness for C12: Liam as a Person and as a Student, freshly built. -/
theorem C12_dispatch_in_bounds_witness :
    (State.initial 1).WF ∧
    Person_New 19 "Liam" (staticInit (State.initial 1)) = (some 0, liamPersonState) ∧
    Student_New 19 "Liam" lit_3_8 (staticInit (State.initial 1)) = (some 0, liamState) ∧
    (∃ σ1, runOps [] 0 liamPersonState = some σ1 ∧
        σ1.tableSizeAt 0 = some 6 ∧
        (∀ i ∈ personWrapperIndices, i < 6 ∧ ∃ f, σ1.slot 0 i = some f) ∧
        (Person_Delete 0 σ1).isSome = true ∧
        (∀ op : Op, op.isPersonWrapper = true → (op.run 0 σ1).isSome = true)) ∧
    (∃ τ1, runOps [Op.Student_Grow] 0 liamState = some τ1 ∧
        τ1.tableSizeAt 0 = some 7 ∧
        (∀ i ∈ personWrapperIndices ++ studentWrapperIndices,
          i < 7 ∧ ∃ f, τ1.slot 0 i = some f) ∧
        (Person_Delete 0 τ1).isSome = true ∧ (Student_Delete 0 τ1).isSome = true ∧
        (∀ op : Op, (op.run 0 τ1).isSome = true)) :=
  have h := C12_dispatch_in_bounds (State.initial 1) liamPersonState (State.initial 1)
    liamState 19 "Liam" lit_3_8 0 0 (by decide) rfl (by decide) rfl
  ⟨by decide, rfl, rfl, h.2.2.1 [] (by decide), h.2.2.2 [Op.Student_Grow]⟩

/-! ## Virtual and direct GPA access -/

/-- C13. For a Student `D` built by `Student_New a n g` on initialised tables, and after
any sequence of wrapper calls on it, slot `Student_VTI_GetGPA` of its table holds
`_Student_GetGPA`, the virtual call `Student_GetGPA` and the direct call
`_Student_GetGPA` both return `g`, the virtual call changes only the call log (heap,
output, tables and allocator are as before), the direct call has no state to change, and
`FunctionTakingStudent`, which calls directly, prints the name and that same `g`. -/
theorem C13_virtual_equals_direct (σ0 σ : State) (a : Nat) (n : String) (g : Double)
    (D : Nat) (hWF : σ0.WF)
    (hNew : Student_New a n g (staticInit σ0) = (some D, σ)) :
    ∀ ops : List Op,
      ∃ σ1, runOps ops D σ = some σ1 ∧
        σ1.slot D Student_VTI_GetGPA = some Fn._Student_GetGPA ∧
        Student_GetGPA D σ1 = some (g, σ1.logCall Fn._Student_GetGPA D) ∧
        _Student_GetGPA D σ1 = some g ∧
        (Student_GetGPA D σ1).map Prod.fst = _Student_GetGPA D σ1 ∧
        (σ1.logCall Fn._Student_GetGPA D).heap = σ1.heap ∧
        (σ1.logCall Fn._Student_GetGPA D).out = σ1.out ∧
        (σ1.logCall Fn._Student_GetGPA D).tables = σ1.tables ∧
        (σ1.logCall Fn._Student_GetGPA D).avail = σ1.avail ∧
        (σ1.logCall Fn._Student_GetGPA D).load D = σ1.load D ∧
        ∀ fmt_2f : Double → String,
          FunctionTakingStudent fmt_2f D σ1 =
            some (σ1.print (n ++ "'s GPA is " ++ fmt_2f g ++ "\n")) := by
  obtain ⟨hR, hL, -, -⟩ := Student_New_ready a n g _ σ D (staticInit_ready σ0 hWF) hNew
  intro ops
  obtain ⟨σ1, h1, hR1, hL1⟩ := runOps_student ops σ D a n g hR hL
  have hdir : _Student_GetGPA D σ1 = some g := by
    simp [_Student_GetGPA, hL1, newStudent, Obj.asStudent]
  have hvirt := getGPA_student σ1 D _ n g hR1 hL1
  refine ⟨σ1, h1, ?_, hvirt, hdir, ?_, rfl, rfl, rfl, rfl, rfl, ?_⟩
  · rw [slot_newStudent σ1 D _ _ n g hR1 hL1]; rfl
  · rw [hvirt, hdir]; rfl
  · intro fmt_2f
    simp [FunctionTakingStudent, hdir, hL1, newStudent, Obj.asStudent]

/-- Witness for C13: Liam's GPA after one `Student_Grow`. -/
theorem C13_virtual_equals_direct_witness :
    (State.initial 1).WF ∧
    Student_New 19 "Liam" lit_3_8 (staticInit (State.initial 1)) = (some 0, liamState) ∧
    ∃ σ1, runOps [Op.Student_Grow] 0 liamState = some σ1 ∧
      Student_GetGPA 0 σ1 = some (lit_3_8, σ1.logCall Fn._Student_GetGPA 0) ∧
      _Student_GetGPA 0 σ1 = some lit_3_8 :=
  have h := C13_virtual_equals_direct (State.initial 1) liamState 19 "Liam" lit_3_8 0
    (by decide) rfl [Op.Student_Grow]
  ⟨by decide, rfl, h.elim fun σ1 hs => ⟨σ1, hs.1, hs.2.2.1, hs.2.2.2.1⟩⟩

/-! ## Release -/

theorem release_after_prints (σ : State) (D a : Nat) (n : String) (g : Double)
    (hR : σ.Ready) (hL : σ.load D = some (newStudent a n g)) :
    ∃ σ2 σ3, FunctionTakingPerson D σ = some σ2 ∧ Student_Delete D σ2 = some σ3 ∧
      σ3.calls = σ.calls ++ [(Fn._Person_SayHello, D), (Fn._Student_TalkAboutSelf, D),
        (Fn._Person_Delete, D)] ∧
      σ3.heap = σ.heap.set D none ∧
      σ3.out = σ.out ++ ("Hello world, I'm " ++ n ++ "!\n")
        ++ ("I am " ++ fmt_d (asInt32 a) ++ " years old, and doing "
          ++ (if g.gt lit_2_6 then "Well" else "Poorly") ++ " in class!\n") := by
  obtain ⟨σ2, hfun, hR2, hL2⟩ := FunctionTakingPerson_student_inv σ D a n g hR hL
  have hfun2 := FunctionTakingPerson_student σ D a n g hR hL
  have hdel := Student_Delete_student σ2 D a n g hR2 hL2
  refine ⟨σ2, _, hfun, hdel, ?_, ?_, ?_⟩
  · rw [hfun2] at hfun
    have h2 := (Option.some.inj hfun).symm
    subst h2
    simp [State.logCall, State.print]
  · rw [hfun2] at hfun
    have h2 := (Option.some.inj hfun).symm
    subst h2
    rfl
  · rw [hfun2] at hfun
    have h2 := (Option.some.inj hfun).symm
    subst h2
    rfl

theorem heap_set_last (l : List (Option Obj)) (x : Option Obj) :
    (l ++ [x]).set l.length none = l ++ [none] := by
  induction l with
  | nil => rfl
  | cons y ys ih => simp only [List.cons_append, List.length_cons, List.set_cons_succ, ih]

theorem liam_lines :
    "Hello world, I'm " ++ "Liam" ++ "!\n" = "Hello world, I'm Liam!\n" ∧
    "I am " ++ fmt_d (asInt32 19) ++ " years old, and doing "
        ++ (if lit_3_8.gt lit_2_6 then "Well" else "Poorly") ++ " in class!\n"
      = "I am 19 years old, and doing Well in class!\n" := by
  set_option exponentiation.threshold 4096 in
  constructor <;> decide

theorem main_run (σ : State) (hWF : σ.WF) (h : 0 < σ.avail) :
    ∃ σ1, main σ = some (0, σ1) ∧
      σ1.calls = σ.calls ++ [(Fn._Person_SayHello, σ.heap.length),
        (Fn._Student_TalkAboutSelf, σ.heap.length), (Fn._Person_Delete, σ.heap.length)] ∧
      σ1.heap = σ.heap ++ [none] ∧
      σ1.out = σ.out ++ "Hello world, I'm Liam!\n"
        ++ "I am 19 years old, and doing Well in class!\n" := by
  have hnew := Student_New_ok 19 "Liam" lit_3_8 (staticInit σ) h
  obtain ⟨hR1, hL1, hout, hcalls⟩ :=
    Student_New_ready 19 "Liam" lit_3_8 _ _ _ (staticInit_ready σ hWF) hnew
  obtain ⟨σ2, σ3, hfun, hdel, hc, hh, ho⟩ :=
    release_after_prints _ (staticInit σ).heap.length 19 "Liam" lit_3_8 hR1 hL1
  refine ⟨σ3, ?_, ?_, ?_, ?_⟩
  · rw [main_unfold, hnew]
    simp only [hfun, hdel]
  · rw [hc, hcalls]; rfl
  · rw [hh]
    exact heap_set_last σ.heap _
  · rw [ho, hout, liam_lines.1, liam_lines.2]; rfl

theorem load_after_release (σ : State) (f : Fn) (p : Nat) :
    ({ σ.logCall f p with heap := σ.heap.set p none } : State).load p = none := by
  by_cases hlt : p < σ.heap.length
  · simp [State.load, State.logCall, hlt]
  · have hnone : (σ.heap.set p none)[p]? = none :=
      List.getElem?_eq_none (by rw [List.length_set]; exact Nat.le_of_not_lt hlt)
    simp [State.load, State.logCall, hnone]

/-- C14. No entry point other than `_Person_Delete` implements release. For a Student
`D` built by `Student_New`, fresh or after any sequence of wrapper calls, slot
`Student_VTI_Delete` of its table holds `_Person_Delete`, and `Student_Delete` is that
one indirect call: it releases the block at `D`. A run of `main` whose allocation
succeeds returns 0, and the indirect calls it makes on the new instance are, in order,
`_Person_SayHello`, `_Student_TalkAboutSelf`, `_Person_Delete`: one release, after both
prints, nothing after it, and the block is no longer live. -/
theorem C14_release (σ0 σ ρ : State) (a : Nat) (n : String) (g : Double) (D : Nat)
    (hWF : σ0.WF)
    (hNew : Student_New a n g (staticInit σ0) = (some D, σ))
    (hWFm : ρ.WF) (hmem : 0 < ρ.avail) :
    (∀ f : Fn, f.operation = Operation.Delete → f = Fn._Person_Delete) ∧
    (∀ ops : List Op,
      ∃ σ1, runOps ops D σ = some σ1 ∧
        σ1.slot D Student_VTI_Delete = some Fn._Person_Delete ∧
        Student_Delete D σ1 = _Person_Delete D (σ1.logCall Fn._Person_Delete D) ∧
        Student_Delete D σ1 =
          some { σ1.logCall Fn._Person_Delete D with heap := σ1.heap.set D none } ∧
        ({ σ1.logCall Fn._Person_Delete D with heap := σ1.heap.set D none } : State).load D
          = none) ∧
    (∃ ρ1, main ρ = some (0, ρ1) ∧
      ρ1.calls = ρ.calls ++ [(Fn._Person_SayHello, ρ.heap.length),
        (Fn._Student_TalkAboutSelf, ρ.heap.length), (Fn._Person_Delete, ρ.heap.length)] ∧
      ρ1.heap = ρ.heap ++ [none] ∧
      ρ1.load ρ.heap.length = none ∧
      ρ1.out = ρ.out ++ "Hello world, I'm Liam!\n"
        ++ "I am 19 years old, and doing Well in class!\n") := by
  obtain ⟨hR, hL, -, -⟩ := Student_New_ready a n g _ σ D (staticInit_ready σ0 hWF) hNew
  refine ⟨?_, ?_, ?_⟩
  · intro f hf
    cases f <;> simp [Fn.operation] at hf ⊢
  · intro ops
    obtain ⟨σ1, h1, hR1, hL1⟩ := runOps_student ops σ D a n g hR hL
    have hdel := Student_Delete_student σ1 D _ n g hR1 hL1
    refine ⟨σ1, h1, ?_, ?_, hdel, load_after_release σ1 _ D⟩
    · rw [slot_newStudent σ1 D _ _ n g hR1 hL1]; rfl
    · have hl : (σ1.logCall Fn._Person_Delete D).load D = some _ := hL1
      rw [hdel]
      simp only [_Person_Delete, State.free, hl]
      rfl
  · obtain ⟨ρ1, hmain, hc, hh, ho⟩ := main_run ρ hWFm hmem
    refine ⟨ρ1, hmain, hc, hh, ?_, ho⟩
    simp [State.load, hh]

/-- Witness for C14: Liam, and `main` from program start with memory for one block. -/
theorem C14_release_witness :
    (State.initial 1).WF ∧ 0 < (State.initial 1).avail ∧
    Student_New 19 "Liam" lit_3_8 (staticInit (State.initial 1)) = (some 0, liamState) ∧
    Student_Delete 0 liamState =
      some { liamState.logCall Fn._Person_Delete 0 with heap := liamState.heap.set 0 none } ∧
    (∃ ρ1, main (State.initial 1) = some (0, ρ1) ∧
      ρ1.calls = [(Fn._Person_SayHello, 0), (Fn._Student_TalkAboutSelf, 0),
        (Fn._Person_Delete, 0)] ∧
      ρ1.heap = [none] ∧
      ρ1.out = "Hello world, I'm Liam!\nI am 19 years old, and doing Well in class!\n") :=
  have h := C14_release (State.initial 1) liamState (State.initial 1) 19 "Liam" lit_3_8 0
    (by decide) rfl (by decide) (by decide)
  ⟨by decide, by decide, rfl,
    (h.2.1 []).elim fun σ1 hs => (Option.some.inj hs.1) ▸ hs.2.2.2.1,
    h.2.2.elim fun ρ1 hs => ⟨ρ1, hs.1, hs.2.1, hs.2.2.1, hs.2.2.2.2⟩⟩

/-! ## The Student initialiser and Person instances -/

theorem Student_StaticInit_person_table (σ : State) :
    (_Student_StaticInit σ)._Person_VTable = σ._Person_VTable ∧
    (_Student_StaticInit σ)._Person_VCallList = σ._Person_VCallList ∧
    (_Student_StaticInit σ).heap = σ.heap ∧ (_Student_StaticInit σ).out = σ.out :=
  ⟨rfl, rfl, rfl, rfl⟩

theorem Person_StaticInit_personReady (σ : State) (h : σ.WF) :
    (_Person_StaticInit σ).PersonReady :=
  ⟨rfl, Person_StaticInit_calls σ h.1⟩

theorem Ready.personReady (σ : State) (h : σ.Ready) : σ.PersonReady :=
  ⟨h.pTable, h.pCalls⟩

theorem Person_New_personReady (Age : Nat) (Name : String) (σ σ1 : State) (B : Nat)
    (hR : σ.PersonReady) (h : Person_New Age Name σ = (some B, σ1)) :
    σ1.PersonReady ∧ σ1.load B = some (newPerson Age Name) ∧ σ1.out = σ.out := by
  obtain ⟨_, hB, h1⟩ := Person_New_eq Age Name σ σ1 B h
  subst hB h1
  exact ⟨⟨hR.pTable, hR.pCalls⟩, by simp [State.load], rfl⟩

theorem Person_TalkAboutSelf_person (σ : State) (B a : Nat) (n : String)
    (hR : σ.PersonReady) (hL : σ.load B = some (newPerson a n)) :
    σ.slot B Person_VTI_TalkAboutSelf = some Fn._Person_TalkAboutSelf ∧
    Person_TalkAboutSelf B σ =
      some ((σ.logCall Fn._Person_TalkAboutSelf B).print
        ("I am " ++ fmt_d (asInt32 a) ++ " years old.\n")) := by
  have hs : σ.slot B Person_VTI_TalkAboutSelf = some Fn._Person_TalkAboutSelf := by
    simp only [State.slot, hL, newPerson, Obj.asPerson, State.vtable, hR.pTable,
      State.callList, hR.pCalls]
    rfl
  have h2 := dispatchVoid_Person_TalkAboutSelf σ B Person_VTI_TalkAboutSelf
    (newPerson a n) hs hL
  simp only [newPerson, Obj.asPerson] at h2
  exact ⟨hs, h2⟩

/-- For ages below `2 ^ 31`, a Person built after `_Person_StaticInit`, with or without
`_Student_StaticInit`, is described with its age in decimal. -/
theorem Person_TalkAboutSelf_output (σ0 σ τ : State) (a : Nat) (n : String) (B C : Nat)
    (ha : a < 2 ^ 31) (hWF : σ0.WF)
    (hNew : Person_New a n (_Person_StaticInit σ0) = (some B, σ))
    (hNewBoth : Person_New a n (staticInit σ0) = (some C, τ)) :
    (Person_TalkAboutSelf B σ).map State.out =
      some (σ0.out ++ ("I am " ++ Nat.repr a ++ " years old.\n")) ∧
    (Person_TalkAboutSelf C τ).map State.out =
      some (σ0.out ++ ("I am " ++ Nat.repr a ++ " years old.\n")) := by
  obtain ⟨hR, hL, hout⟩ :=
    Person_New_personReady a n _ σ B (Person_StaticInit_personReady σ0 hWF) hNew
  obtain ⟨hR2, hL2, hout2⟩ :=
    Person_New_personReady a n _ τ C (Ready.personReady _ (staticInit_ready σ0 hWF)) hNewBoth
  have e : ∀ (ρ : State) (f : Fn) (p : Nat) (s : String),
      ((ρ.logCall f p).print s).out = ρ.out ++ s := fun _ _ _ _ => rfl
  rw [(Person_TalkAboutSelf_person σ B a n hR hL).2,
    (Person_TalkAboutSelf_person τ C a n hR2 hL2).2, fmt_d_asInt32_of_lt a ha,
    Option.map_some', Option.map_some', e, e, hout, hout2]
  exact ⟨rfl, rfl⟩

/-- C15. `_Student_StaticInit` leaves the Person table as it was: the `VTable` struct
with its parent link and the six slots. A Person aged 19 built after
`_Person_StaticInit` alone, or after both initialisers, is described by
`_Person_TalkAboutSelf` as `I am 19 years old.`; a Person aged 4294967295 is described,
either way, as `I am -1 years old.`: the `uint32_t` age is printed through `%d`, so it
is not the age in decimal. -/
theorem C15_student_init_frame_and_signed_age :
    (∀ σ : State,
      (_Student_StaticInit σ)._Person_VTable = σ._Person_VTable ∧
      (_Student_StaticInit σ)._Person_VCallList = σ._Person_VCallList) ∧
    Person_New 19 "Liam" (_Person_StaticInit (State.initial 1)) =
      (some 0, liamPersonOnlyState) ∧
    liamPersonOnlyState.slot 0 Person_VTI_TalkAboutSelf = some Fn._Person_TalkAboutSelf ∧
    liamPersonState.slot 0 Person_VTI_TalkAboutSelf = some Fn._Person_TalkAboutSelf ∧
    (Person_TalkAboutSelf 0 liamPersonOnlyState).map State.out =
      some "I am 19 years old.\n" ∧
    (Person_TalkAboutSelf 0 liamPersonState).map State.out = some "I am 19 years old.\n" ∧
    Person_New 4294967295 "Liam" (_Person_StaticInit (State.initial 1)) =
      (some 0, maxAgePersonOnlyState) ∧
    (Person_GetAge 0 maxAgePersonOnlyState).map Prod.fst = some 4294967295 ∧
    (Person_TalkAboutSelf 0 maxAgePersonOnlyState).map State.calls =
      some [(Fn._Person_TalkAboutSelf, 0)] ∧
    (Person_TalkAboutSelf 0 maxAgePersonOnlyState).map State.out =
      some "I am -1 years old.\n" ∧
    (Person_TalkAboutSelf 0 maxAgeState).map State.out = some "I am -1 years old.\n" ∧
    (Person_TalkAboutSelf 0 maxAgePersonOnlyState).map State.out ≠
      some "I am 4294967295 years old.\n" := by
  refine ⟨fun σ => ⟨rfl, rfl⟩, rfl, ?_, ?_, ?_, ?_, rfl, ?_, ?_, ?_, ?_, ?_⟩ <;> decide

/-! ## Idempotence and order of the initialisers -/

theorem set6_idem {α : Type} (l : List α) (a b c d e f : α) :
    ((((((((((((l.set 0 a).set 1 b).set 2 c).set 3 d).set 4 e).set 5 f).set 0 a).set 1 b).set 2
      c).set 3 d).set 4 e).set 5 f) =
      ((((((l.set 0 a).set 1 b).set 2 c).set 3 d).set 4 e).set 5 f) := by
  match l with
  | [] => rfl
  | [_] => rfl
  | [_, _] => rfl
  | [_, _, _] => rfl
  | [_, _, _, _] => rfl
  | [_, _, _, _, _] => rfl
  | _ :: _ :: _ :: _ :: _ :: _ :: _ => rfl

theorem set7_idem {α : Type} (l : List α) (a b c d e f g : α) :
    ((((((((((((((l.set 0 a).set 1 b).set 2 c).set 3 d).set 4 e).set 5 f).set 6 g).set 0 a).set 1
      b).set 2 c).set 3 d).set 4 e).set 5 f).set 6 g) =
      (((((((l.set 0 a).set 1 b).set 2 c).set 3 d).set 4 e).set 5 f).set 6 g) := by
  match l with
  | [] => rfl
  | [_] => rfl
  | [_, _] => rfl
  | [_, _, _] => rfl
  | [_, _, _, _] => rfl
  | [_, _, _, _, _] => rfl
  | [_, _, _, _, _, _] => rfl
  | _ :: _ :: _ :: _ :: _ :: _ :: _ :: _ => rfl

theorem Person_StaticInit_idem (σ : State) :
    _Person_StaticInit (_Person_StaticInit σ) = _Person_StaticInit σ := by
  simp only [_Person_StaticInit, Person_VTI_Delete, Person_VTI_SayHello,
    Person_VTI_TalkAboutSelf, Person_VTI_Grow, Person_VTI_GetAge, Person_VTI_GetName, set6_idem]

theorem Student_StaticInit_idem (σ : State) :
    _Student_StaticInit (_Student_StaticInit σ) = _Student_StaticInit σ := by
  simp only [_Student_StaticInit, Student_VTI_Delete, Student_VTI_SayHello,
    Student_VTI_TalkAboutSelf, Student_VTI_Grow, Student_VTI_GetAge, Student_VTI_GetName,
    Student_VTI_GetGPA, Person_VTI_MaxVTI_, Person_VTI_Delete, Person_VTI_SayHello,
    Person_VTI_TalkAboutSelf, Person_VTI_Grow, Person_VTI_GetAge, Person_VTI_GetName,
    Nat.reduceAdd, set7_idem]

theorem StaticInit_comm (σ : State) :
    _Person_StaticInit (_Student_StaticInit σ) = _Student_StaticInit (_Person_StaticInit σ) :=
  rfl

/-- C16. Running `_Person_StaticInit` or `_Student_StaticInit` twice in a row gives the
state one run gives, and running either again after both have run changes nothing.
Running `_Student_StaticInit` first and `_Person_StaticInit` second gives the same state,
so the same pair of tables, as the order `main` uses. What `_Student_StaticInit` writes
does not depend on the Person table: replacing the Person table before the call is the
same as replacing it after. -/
theorem C16_init_idempotent_commutes (σ : State) :
    _Person_StaticInit (_Person_StaticInit σ) = _Person_StaticInit σ ∧
    _Student_StaticInit (_Student_StaticInit σ) = _Student_StaticInit σ ∧
    _Person_StaticInit (staticInit σ) = staticInit σ ∧
    _Student_StaticInit (staticInit σ) = staticInit σ ∧
    (_Person_StaticInit (staticInit σ)).tables = (staticInit σ).tables ∧
    (_Student_StaticInit (staticInit σ)).tables = (staticInit σ).tables ∧
    _Person_StaticInit (_Student_StaticInit σ) = _Student_StaticInit (_Person_StaticInit σ) ∧
    (_Person_StaticInit (_Student_StaticInit σ)).tables =
      (_Student_StaticInit (_Person_StaticInit σ)).tables ∧
    (∀ (pt : VTable) (pl : List (Option Fn)),
      _Student_StaticInit { σ with _Person_VTable := pt, _Person_VCallList := pl } =
        { _Student_StaticInit σ with _Person_VTable := pt, _Person_VCallList := pl }) := by
  have hP : _Person_StaticInit (staticInit σ) = staticInit σ := by
    rw [staticInit, StaticInit_comm, Person_StaticInit_idem]
  have hS : _Student_StaticInit (staticInit σ) = staticInit σ := by
    rw [staticInit, Student_StaticInit_idem]
  exact ⟨Person_StaticInit_idem σ, Student_StaticInit_idem σ, hP, hS, by rw [hP], by rw [hS],
    rfl, rfl, fun _ _ => rfl⟩

end CMethodInheritance
